import Mathlib

/-!
# LoRaWAN example application (main.cpp): shallow embedding

The application is a set of callbacks run on one event queue.  Every call the
application makes to a collaborator (the LoRaWAN stack object `lorawan`, the
event queue `ev_queue`, `printf`) is appended to a log, so that "how many times
was `send` called" is a statement about the log.  The replies of the stack are
taken from an oracle (`Engine`) indexed by the number of earlier calls of the
same kind, which lets the stack answer every call with any value.
-/

namespace LoRaWANExample

/-! ## Constants of the stack headers and of the build configuration -/

/-- Modelled from the spec: the status enumeration lorawan_status_t is declared in the
stack headers, which are not part of this repository.  OK is the zero status. -/
def LORAWAN_STATUS_OK : Int := 0

/-- Modelled from the spec: the "would block" status is a negative send result
(lorawan_status_t of the stack headers, value -1001 there). -/
def LORAWAN_STATUS_WOULD_BLOCK : Int := -1001

/-- Modelled from the spec: the "connect in progress" status, different from OK
(lorawan_status_t of the stack headers, value -1016 there). -/
def LORAWAN_STATUS_CONNECT_IN_PROGRESS : Int := -1016

/-- Modelled from the spec: data rate index DR_0 of the stack headers. -/
def DR_0 : Nat := 0

/-- Modelled from the spec: flag selecting an unconfirmed uplink (stack headers). -/
def MSG_UNCONFIRMED_FLAG : Nat := 1

/-- Source: `#define TX_TIMER 30000`. -/
def TX_TIMER : Nat := 30000

/-- Source: `#define CONFIRMED_MSG_RETRY_COUNTER 3`. -/
def CONFIRMED_MSG_RETRY_COUNTER : Nat := 3

/-- Source: `#define DATA_RATE DR_0`. -/
def DATA_RATE : Nat := DR_0

/-- Build-time configuration macros (generated from the application configuration,
not part of the source files): taken as parameters. -/
structure Config where
  MBED_CONF_LORA_DUTY_CYCLE_ON : Bool
  MBED_CONF_LORA_APP_PORT : Nat
  deriving DecidableEq, Repr

/-! ## Event codes

Modelled from the spec: the enumeration lorawan_event_t lives in the stack headers.
An event is its integer code; the twelve events the handler names are numbered in
the order of the enumeration, starting at zero.  Codes from 12 on are the values
of that type the handler does not name. -/

abbrev lorawan_event_t := Nat

def CONNECTED : lorawan_event_t := 0
def DISCONNECTED : lorawan_event_t := 1
def TX_DONE : lorawan_event_t := 2
def TX_TIMEOUT : lorawan_event_t := 3
def TX_ERROR : lorawan_event_t := 4
def TX_CRYPTO_ERROR : lorawan_event_t := 5
def TX_SCHEDULING_ERROR : lorawan_event_t := 6
def RX_DONE : lorawan_event_t := 7
def RX_TIMEOUT : lorawan_event_t := 8
def RX_ERROR : lorawan_event_t := 9
def JOIN_FAILURE : lorawan_event_t := 10
def UPLINK_REQUIRED : lorawan_event_t := 11

/-! ## Calls to collaborators -/

/-- Functions of main.cpp that are handed to the event queue as timer callbacks. -/
inductive Callback where
  | send_message
  deriving DecidableEq, Repr

/-- The printf call sites of main.cpp, named after their text. -/
inductive Msg where
  | init_failed
  | stack_initialized
  | set_retries_failed
  | confirmed_retries
  | disable_adr_failed
  | adr_disabled
  | connection_error
  | connection_in_progress
  | send_would_block
  | send_error
  | bytes_scheduled
  | receive_error
  | rx_data
  | rx_newline
  | connection_successful
  | set_datarate_failed
  | datarate_set
  | disconnected
  | message_sent
  | tx_metadata
  | tx_metadata_error
  | tx_error
  | transmission_error
  | received_message
  | reception_error
  | otaa_failed
  | uplink_required
  deriving DecidableEq, Repr

/-- One call made by the application to a collaborator. -/
inductive Call where
  | setup_trace
  | lorawan_init
  | add_app_callbacks
  | set_confirmed_msg_retries (count : Nat)
  | disable_adaptive_datarate
  | connect
  | dispatch_forever
  | send (port : Nat) (data : List Nat) (length : Nat) (flags : Nat)
  | receive (length : Nat)
  | set_datarate (data_rate : Nat)
  | get_tx_metadata
  | call_in (ms : Nat) (cb : Callback)
  | call_every (ms : Nat) (cb : Callback)
  | break_dispatch
  | printf (m : Msg) (args : List Int)
  | render_rx_byte (index : Nat) (value : Option Nat)
  deriving DecidableEq, Repr

def Call.isSend : Call → Bool
  | .send _ _ _ _ => true
  | _ => false

def Call.isReceive : Call → Bool
  | .receive _ => true
  | _ => false

def Call.isSetDatarate : Call → Bool
  | .set_datarate _ => true
  | _ => false

def Call.isGetTxMetadata : Call → Bool
  | .get_tx_metadata => true
  | _ => false

def Call.isCallIn : Call → Bool
  | .call_in _ _ => true
  | _ => false

def Call.isCallEvery : Call → Bool
  | .call_every _ _ => true
  | _ => false

def Call.isBreakDispatch : Call → Bool
  | .break_dispatch => true
  | _ => false

/-- A call to the LoRaWAN stack object (as opposed to the event queue or printf). -/
def Call.isEngine : Call → Bool
  | .lorawan_init => true
  | .add_app_callbacks => true
  | .set_confirmed_msg_retries _ => true
  | .disable_adaptive_datarate => true
  | .connect => true
  | .send _ _ _ _ => true
  | .receive _ => true
  | .set_datarate _ => true
  | .get_tx_metadata => true
  | _ => false

/-! ## The stack as an oracle -/

/-- What one call of `lorawan.receive` does: the bytes it stores in the caller's
buffer, the port and flags it reports, and the int16_t it returns. -/
structure ReceiveReply where
  data : List Nat
  port : Nat
  flags : Int
  retcode : Int
  deriving DecidableEq, Repr

/-- Replies of the LoRaWAN stack.  `send n` is what the call of `lorawan.send` that
was preceded by `n` earlier calls of `send` returns, and so on. -/
structure Engine where
  lorawan_init : Int
  set_confirmed_msg_retries : Int
  disable_adaptive_datarate : Int
  connect : Int
  send : Nat → Int
  receive : Nat → ReceiveReply
  set_datarate : Nat → Int
  get_tx_metadata : Nat → Int

/-! ## Program state -/

/-- An armed timer of the event queue. -/
structure Timer where
  ms : Nat
  cb : Callback
  deriving DecidableEq, Repr

/-- Modelled from the spec: the class EventQueue belongs to the operating system, not
to this repository.  Its state is the one-shot timers armed by `call_in` and not
yet fired (oldest first), the periodic timers armed by `call_every`, and whether
`break_dispatch` has requested the loop to stop. -/
structure EventQueue where
  one_shot : List Timer
  periodic : List Timer
  break_requested : Bool
  deriving DecidableEq, Repr

/-- The globals of main.cpp (`tx_buffer`, `rx_buffer`, `ev_queue`) and the log of
calls made so far, oldest first. -/
structure State where
  tx_buffer : List Nat
  rx_buffer : List Nat
  ev_queue : EventQueue
  log : List Call
  deriving DecidableEq, Repr

/-- State at program start: both 7-byte arrays are zero-initialised globals, the queue
is empty, nothing has been called. -/
def State.init : State :=
  { tx_buffer := List.replicate 7 0
    rx_buffer := List.replicate 7 0
    ev_queue := { one_shot := [], periodic := [], break_requested := false }
    log := [] }

/-- Result of running code that may abort the process or fail to return. -/
inductive Outcome (α : Type) where
  | ok (a : α)
  | abort (s : State)
  | out_of_fuel
  deriving Repr

/-- Append a call to the log. -/
def State.emit (s : State) (c : Call) : State :=
  { s with log := s.log ++ [c] }

/-- Store `bytes` in `buf` from index `i` on; a store outside the array is dropped. -/
def store : List Nat → Nat → List Nat → List Nat
  | buf, _, [] => buf
  | buf, i, b :: bs => store (buf.set i b) (i + 1) bs

/-- Library call `sprintf(buf, text)` for a text without conversions: stores the
characters and the terminating NUL, returns the number of characters. -/
def sprintf (buf : List Nat) (text : List Nat) : Nat × List Nat :=
  (text.length, store buf 0 (text ++ [0]))

/-- Library call `memset(buf, c, n)` on an array of `n` bytes. -/
def memset (c : Nat) (n : Nat) : List Nat :=
  List.replicate n c

/-! ## Collaborator calls -/

/-- Modelled from the spec: `call_in(delay_ms, fn)` arms a one-shot timer. -/
def ev_queue_call_in (ms : Nat) (cb : Callback) (s : State) : State :=
  { s with
    ev_queue := { s.ev_queue with one_shot := s.ev_queue.one_shot ++ [{ ms := ms, cb := cb }] }
    log := s.log ++ [Call.call_in ms cb] }

/-- Modelled from the spec: `call_every(period_ms, fn)` arms a periodic timer. -/
def ev_queue_call_every (ms : Nat) (cb : Callback) (s : State) : State :=
  { s with
    ev_queue := { s.ev_queue with periodic := s.ev_queue.periodic ++ [{ ms := ms, cb := cb }] }
    log := s.log ++ [Call.call_every ms cb] }

/-- Modelled from the spec: `break_dispatch()` requests loop termination. -/
def ev_queue_break_dispatch (s : State) : State :=
  { s with
    ev_queue := { s.ev_queue with break_requested := true }
    log := s.log ++ [Call.break_dispatch] }

/-- Call `lorawan.send(port, data, length, flags)`: logged, answered by the oracle. -/
def lorawan_send (eng : Engine) (port : Nat) (data : List Nat) (length flags : Nat)
    (s : State) : Int × State :=
  (eng.send (s.log.countP Call.isSend), s.emit (Call.send port data length flags))

/-- Call `lorawan.receive(rx_buffer, length, port, flags)`: the stack stores at most
`length` bytes in `rx_buffer`; returns the port and the return code. -/
def lorawan_receive (eng : Engine) (length : Nat) (s : State) : Nat × Int × State :=
  let r := eng.receive (s.log.countP Call.isReceive)
  (r.port, r.retcode,
    { s with
      rx_buffer := store s.rx_buffer 0 (r.data.take length)
      log := s.log ++ [Call.receive length] })

/-- Call `lorawan.set_datarate(data_rate)`. -/
def lorawan_set_datarate (eng : Engine) (data_rate : Nat) (s : State) : Int × State :=
  (eng.set_datarate (s.log.countP Call.isSetDatarate), s.emit (Call.set_datarate data_rate))

/-- Call `lorawan.get_tx_metadata(txMetadata)`; only the status matters here. -/
def lorawan_get_tx_metadata (eng : Engine) (s : State) : Int × State :=
  (eng.get_tx_metadata (s.log.countP Call.isGetTxMetadata), s.emit Call.get_tx_metadata)

/-- Value of a C expression used as a condition. -/
inductive CExpr where
  | string_literal (text : String)
  | int_value (v : Int)
  deriving Repr

/-- A string literal is a pointer to static storage, never null, hence true; an
integer is true when it is not zero. -/
def CExpr.truth : CExpr → Bool
  | .string_literal _ => true
  | .int_value v => decide (v ≠ 0)

/-- Modelled from the spec: the assertion macro MBED_ASSERT comes from the platform
headers, not from this repository.  A fatal assertion aborts the process when its
condition is false and has no effect when it is true. -/
def MBED_ASSERT (expr : CExpr) (s : State) : Outcome State :=
  if expr.truth then Outcome.ok s else Outcome.abort s

/-! ## main.cpp -/

/-- Source: `send_message()`. -/
def send_message (cfg : Config) (eng : Engine) (s : State) : State :=
  -- packet_len = sprintf((char *) tx_buffer, "0");
  let (packet_len, buf) := sprintf s.tx_buffer [0x30]
  let s := { s with tx_buffer := buf }
  -- retcode = lorawan.send(MBED_CONF_LORA_APP_PORT, tx_buffer, packet_len, MSG_UNCONFIRMED_FLAG);
  let (retcode, s) :=
    lorawan_send eng cfg.MBED_CONF_LORA_APP_PORT s.tx_buffer packet_len MSG_UNCONFIRMED_FLAG s
  if retcode < 0 then
    let s :=
      if retcode = LORAWAN_STATUS_WOULD_BLOCK then s.emit (Call.printf Msg.send_would_block [])
      else s.emit (Call.printf Msg.send_error [retcode])
    if retcode = LORAWAN_STATUS_WOULD_BLOCK then
      -- retry in 3 seconds
      if cfg.MBED_CONF_LORA_DUTY_CYCLE_ON then ev_queue_call_in 3000 Callback.send_message s
      else s
    else s
  else
    let s := s.emit (Call.printf Msg.bytes_scheduled [retcode])
    -- memset(tx_buffer, 0, sizeof(tx_buffer));
    { s with tx_buffer := memset 0 7 }

/-- Source: the loop `for (uint8_t i = 0; i < retcode; i++) printf("%02x ", rx_buffer[i]);`
of `receive_message`.  The counter is 8 bits wide and wraps; one unit of fuel is
used per iteration.  A read outside the 7-byte array is logged with no value. -/
def render_loop (retcode : Int) : Nat → Nat → State → Outcome State
  | 0, i, s => if (i : Int) < retcode then Outcome.out_of_fuel else Outcome.ok s
  | fuel + 1, i, s =>
    if (i : Int) < retcode then
      render_loop retcode fuel ((i + 1) % 256) (s.emit (Call.render_rx_byte i s.rx_buffer[i]?))
    else Outcome.ok s

/-- Source: `receive_message()`. -/
def receive_message (fuel : Nat) (eng : Engine) (s : State) : Outcome State :=
  -- int16_t retcode = lorawan.receive(rx_buffer, sizeof(rx_buffer), port, flags);
  let (port, retcode, s) := lorawan_receive eng 7 s
  if retcode < 0 then
    Outcome.ok (s.emit (Call.printf Msg.receive_error [retcode]))
  else
    let s := s.emit (Call.printf Msg.rx_data [(port : Int), retcode])
    match render_loop retcode fuel 0 s with
    | Outcome.ok s =>
      let s := s.emit (Call.printf Msg.rx_newline [])
      -- memset(rx_buffer, 0, sizeof(rx_buffer));
      Outcome.ok { s with rx_buffer := memset 0 7 }
    | Outcome.abort s => Outcome.abort s
    | Outcome.out_of_fuel => Outcome.out_of_fuel

/-- Source: `lora_event_handler(lorawan_event_t event)`. -/
def lora_event_handler (fuel : Nat) (cfg : Config) (eng : Engine) (event : lorawan_event_t)
    (s : State) : Outcome State :=
  if event = CONNECTED then
    let s := s.emit (Call.printf Msg.connection_successful [])
    let s :=
      if cfg.MBED_CONF_LORA_DUTY_CYCLE_ON then send_message cfg eng s
      else ev_queue_call_every TX_TIMER Callback.send_message s
    let (rc, s) := lorawan_set_datarate eng DATA_RATE s
    if rc ≠ LORAWAN_STATUS_OK then Outcome.ok (s.emit (Call.printf Msg.set_datarate_failed []))
    else Outcome.ok (s.emit (Call.printf Msg.datarate_set []))
  else if event = DISCONNECTED then
    let s := ev_queue_break_dispatch s
    Outcome.ok (s.emit (Call.printf Msg.disconnected []))
  else if event = TX_DONE then
    let s := s.emit (Call.printf Msg.message_sent [])
    let (retcode_tx_data, s) := lorawan_get_tx_metadata eng s
    let s :=
      if retcode_tx_data = LORAWAN_STATUS_OK then s.emit (Call.printf Msg.tx_metadata [])
      else s.emit (Call.printf Msg.tx_metadata_error [retcode_tx_data])
    if cfg.MBED_CONF_LORA_DUTY_CYCLE_ON then Outcome.ok (send_message cfg eng s)
    else Outcome.ok s
  else if event = TX_TIMEOUT ∨ event = TX_ERROR then
    Outcome.ok (s.emit (Call.printf Msg.tx_error [(event : Int)]))
  else if event = TX_CRYPTO_ERROR ∨ event = TX_SCHEDULING_ERROR then
    let s := s.emit (Call.printf Msg.transmission_error [(event : Int)])
    -- try again
    if cfg.MBED_CONF_LORA_DUTY_CYCLE_ON then Outcome.ok (send_message cfg eng s)
    else Outcome.ok s
  else if event = RX_DONE then
    let s := s.emit (Call.printf Msg.received_message [])
    receive_message fuel eng s
  else if event = RX_TIMEOUT ∨ event = RX_ERROR then
    Outcome.ok (s.emit (Call.printf Msg.reception_error [(event : Int)]))
  else if event = JOIN_FAILURE then
    Outcome.ok (s.emit (Call.printf Msg.otaa_failed []))
  else if event = UPLINK_REQUIRED then
    let s := s.emit (Call.printf Msg.uplink_required [])
    if cfg.MBED_CONF_LORA_DUTY_CYCLE_ON then Outcome.ok (send_message cfg eng s)
    else Outcome.ok s
  else
    -- default: MBED_ASSERT("Unknown Event");
    MBED_ASSERT (CExpr.string_literal "Unknown Event") s

/-! ## The dispatch loop -/

/-- What the event queue does next: deliver a stack event to the registered handler,
let the oldest one-shot timer expire, or let the periodic timer number `i` tick. -/
inductive Input where
  | event (e : lorawan_event_t)
  | one_shot
  | periodic (i : Nat)
  deriving DecidableEq, Repr

/-- Run a timer callback. -/
def run_callback (cfg : Config) (eng : Engine) : Callback → State → State
  | Callback.send_message, s => send_message cfg eng s

/-- One turn of the dispatch loop.  All one-shot timers of this program have the
same delay, so they expire in the order they were armed; an expired one-shot timer
leaves the queue before its callback runs.  An input naming a timer that is not
armed does nothing. -/
def dispatch_step (fuel : Nat) (cfg : Config) (eng : Engine) (s : State) :
    Input → Outcome State
  | Input.event e => lora_event_handler fuel cfg eng e s
  | Input.one_shot =>
    match s.ev_queue.one_shot with
    | [] => Outcome.ok s
    | t :: rest =>
      Outcome.ok (run_callback cfg eng t.cb { s with ev_queue := { s.ev_queue with one_shot := rest } })
  | Input.periodic i =>
    match s.ev_queue.periodic[i]? with
    | none => Outcome.ok s
    | some t => Outcome.ok (run_callback cfg eng t.cb s)

/-- Modelled from the spec: `dispatch_forever()` runs the loop until told to stop.
The loop takes the inputs in order and looks at the stop request before each. -/
def dispatch_forever (fuel : Nat) (cfg : Config) (eng : Engine) : List Input → State → Outcome State
  | [], s => Outcome.ok s
  | i :: rest, s =>
    if s.ev_queue.break_requested then Outcome.ok s
    else
      match dispatch_step fuel cfg eng s i with
      | Outcome.ok s1 => dispatch_forever fuel cfg eng rest s1
      | Outcome.abort s1 => Outcome.abort s1
      | Outcome.out_of_fuel => Outcome.out_of_fuel

/-- Source: `main()`.  The inputs are what the event queue admits while
`dispatch_forever` runs.  The result is the exit status and the final state. -/
def main (fuel : Nat) (cfg : Config) (eng : Engine) (inputs : List Input) (s : State) :
    Outcome (Int × State) :=
  let s := s.emit Call.setup_trace
  -- if (lorawan.initialize(&ev_queue) != LORAWAN_STATUS_OK)
  let s := s.emit Call.lorawan_init
  if eng.lorawan_init ≠ LORAWAN_STATUS_OK then
    Outcome.ok (-1, s.emit (Call.printf Msg.init_failed []))
  else
    let s := s.emit (Call.printf Msg.stack_initialized [])
    let s := s.emit Call.add_app_callbacks
    let s := s.emit (Call.set_confirmed_msg_retries CONFIRMED_MSG_RETRY_COUNTER)
    if eng.set_confirmed_msg_retries ≠ LORAWAN_STATUS_OK then
      Outcome.ok (-1, s.emit (Call.printf Msg.set_retries_failed []))
    else
      let s := s.emit (Call.printf Msg.confirmed_retries [(CONFIRMED_MSG_RETRY_COUNTER : Int)])
      let s := s.emit Call.disable_adaptive_datarate
      if eng.disable_adaptive_datarate ≠ LORAWAN_STATUS_OK then
        Outcome.ok (-1, s.emit (Call.printf Msg.disable_adr_failed []))
      else
        let s := s.emit (Call.printf Msg.adr_disabled [])
        let s := s.emit Call.connect
        let retcode := eng.connect
        if retcode = LORAWAN_STATUS_OK ∨ retcode = LORAWAN_STATUS_CONNECT_IN_PROGRESS then
          let s := s.emit (Call.printf Msg.connection_in_progress [])
          let s := s.emit Call.dispatch_forever
          match dispatch_forever fuel cfg eng inputs s with
          | Outcome.ok s => Outcome.ok (0, s)
          | Outcome.abort s => Outcome.abort s
          | Outcome.out_of_fuel => Outcome.out_of_fuel
        else
          Outcome.ok (-1, s.emit (Call.printf Msg.connection_error [retcode]))

/-! ## Vocabulary of the statements -/

/-- The calls logged on the way from state `s` to the later state `t`. -/
def State.calls_since (t s : State) : List Call :=
  t.log.drop s.log.length

/-- A call that arms a timer of the event queue. -/
def Call.isTimer : Call → Bool
  | .call_in _ _ => true
  | .call_every _ _ => true
  | _ => false

/-- The calls `send_message` makes when the payload buffer holds `buf` at the time of
the send and the stack answers `r`. -/
def send_message_calls (cfg : Config) (buf : List Nat) (r : Int) : List Call :=
  Call.send cfg.MBED_CONF_LORA_APP_PORT buf 1 MSG_UNCONFIRMED_FLAG ::
    (if 0 ≤ r then [Call.printf Msg.bytes_scheduled [r]]
     else if r = LORAWAN_STATUS_WOULD_BLOCK then
       Call.printf Msg.send_would_block [] ::
         (if cfg.MBED_CONF_LORA_DUTY_CYCLE_ON then [Call.call_in 3000 Callback.send_message]
          else [])
     else [Call.printf Msg.send_error [r]])

/-- A stack that answers every send with "would block" and everything else with OK. -/
def engine_would_block : Engine :=
  { lorawan_init := 0
    set_confirmed_msg_retries := 0
    disable_adaptive_datarate := 0
    connect := 0
    send := fun _ => LORAWAN_STATUS_WOULD_BLOCK
    receive := fun _ => { data := [], port := 0, flags := 0, retcode := 0 }
    set_datarate := fun _ => 0
    get_tx_metadata := fun _ => 0 }

/-- A stack that accepts every send of one byte and answers everything else with OK. -/
def engine_accepting : Engine :=
  { lorawan_init := 0
    set_confirmed_msg_retries := 0
    disable_adaptive_datarate := 0
    connect := 0
    send := fun _ => 1
    receive := fun _ => { data := [], port := 0, flags := 0, retcode := 0 }
    set_datarate := fun _ => 0
    get_tx_metadata := fun _ => 0 }

/-- Duty-cycle-constrained configuration, application port 15. -/
def config_duty_cycle : Config :=
  { MBED_CONF_LORA_DUTY_CYCLE_ON := true, MBED_CONF_LORA_APP_PORT := 15 }

/-- Fixed-interval configuration (duty cycle off), application port 15. -/
def config_fixed_interval : Config :=
  { MBED_CONF_LORA_DUTY_CYCLE_ON := false, MBED_CONF_LORA_APP_PORT := 15 }

/-- The calls of the downlink path: the receive itself and what is printed. -/
def Call.isDownlink : Call → Bool
  | .receive _ => true
  | .printf _ _ => true
  | .render_rx_byte _ _ => true
  | _ => false

/-- A call that only reports: a printf, or the query of the transmit metadata. -/
def Call.isReport : Call → Bool
  | .printf _ _ => true
  | .get_tx_metadata => true
  | _ => false

/-- The events the handler answers, in duty-cycle mode, with one call of
`send_message` after its report: TX_DONE, TX_CRYPTO_ERROR, TX_SCHEDULING_ERROR and
UPLINK_REQUIRED. -/
def triggers_send (e : lorawan_event_t) : Bool :=
  e == TX_DONE || e == TX_CRYPTO_ERROR || e == TX_SCHEDULING_ERROR || e == UPLINK_REQUIRED

/-- The inputs after which one more retry timer can be outstanding in duty-cycle mode:
the delivery of an event that makes the handler call `send_message`. -/
def Input.may_arm_retry : Input → Bool
  | Input.event e => e == CONNECTED || triggers_send e
  | _ => false

/-- A call that renders one received byte. -/
def Call.isRender : Call → Bool
  | .render_rx_byte _ _ => true
  | _ => false

/-- The rendering of `n` consecutive items of the array `buf` in index order, starting
at index `i`; an index outside the array has no value. -/
def render_calls (buf : List Nat) (i n : Nat) : List Call :=
  (List.range' i n).map (fun j => Call.render_rx_byte j buf[j]?)

/-- A stack whose every receive stores `data` and returns the count `k` on port 15,
and that answers everything else with OK. -/
def engine_downlink (data : List Nat) (k : Int) : Engine :=
  { lorawan_init := 0
    set_confirmed_msg_retries := 0
    disable_adaptive_datarate := 0
    connect := 0
    send := fun _ => 1
    receive := fun _ => { data := data, port := 15, flags := 0, retcode := k }
    set_datarate := fun _ => 0
    get_tx_metadata := fun _ => 0 }

/-- The receive buffer as the call of `lorawan.receive` leaves it, before
`receive_message` does anything else. -/
def rx_after_receive (eng : Engine) (s : State) : List Nat :=
  store s.rx_buffer 0 ((eng.receive (s.log.countP Call.isReceive)).data.take 7)

/-- The startup succeeds, in the words of the specification: initialize, the retry
count and the ADR switch return OK, and connect returns OK or "connect in progress". -/
def startup_ok (eng : Engine) : Bool :=
  decide (eng.lorawan_init = LORAWAN_STATUS_OK) &&
    decide (eng.set_confirmed_msg_retries = LORAWAN_STATUS_OK) &&
    decide (eng.disable_adaptive_datarate = LORAWAN_STATUS_OK) &&
    (decide (eng.connect = LORAWAN_STATUS_OK) ||
      decide (eng.connect = LORAWAN_STATUS_CONNECT_IN_PROGRESS))

/-- The stack operations of a fail-fast startup, in the words of the specification:
initialize, add_app_callbacks, set_confirmed_msg_retries, disable_adaptive_datarate,
connect, in this order, stopping after the first step that does not return OK. -/
def startup_engine_calls (eng : Engine) : List Call :=
  Call.lorawan_init ::
    (if eng.lorawan_init ≠ LORAWAN_STATUS_OK then []
     else
      Call.add_app_callbacks :: Call.set_confirmed_msg_retries 3 ::
        (if eng.set_confirmed_msg_retries ≠ LORAWAN_STATUS_OK then []
         else
          Call.disable_adaptive_datarate ::
            (if eng.disable_adaptive_datarate ≠ LORAWAN_STATUS_OK then []
             else [Call.connect])))

/-- All the calls `main` makes before it either enters the dispatch loop or returns. -/
def startup_calls (eng : Engine) : List Call :=
  Call.setup_trace :: Call.lorawan_init ::
    (if eng.lorawan_init ≠ LORAWAN_STATUS_OK then [Call.printf Msg.init_failed []]
     else
      Call.printf Msg.stack_initialized [] :: Call.add_app_callbacks ::
        Call.set_confirmed_msg_retries CONFIRMED_MSG_RETRY_COUNTER ::
        (if eng.set_confirmed_msg_retries ≠ LORAWAN_STATUS_OK then
          [Call.printf Msg.set_retries_failed []]
         else
          Call.printf Msg.confirmed_retries [(CONFIRMED_MSG_RETRY_COUNTER : Int)] ::
            Call.disable_adaptive_datarate ::
            (if eng.disable_adaptive_datarate ≠ LORAWAN_STATUS_OK then
              [Call.printf Msg.disable_adr_failed []]
             else
              Call.printf Msg.adr_disabled [] :: Call.connect ::
                (if eng.connect = LORAWAN_STATUS_OK ∨
                    eng.connect = LORAWAN_STATUS_CONNECT_IN_PROGRESS then
                  [Call.printf Msg.connection_in_progress [], Call.dispatch_forever]
                 else [Call.printf Msg.connection_error [eng.connect]]))))

/-- A stack whose startup operations return the four given statuses. -/
def engine_startup (i r a c : Int) : Engine :=
  { lorawan_init := i
    set_confirmed_msg_retries := r
    disable_adaptive_datarate := a
    connect := c
    send := fun _ => 1
    receive := fun _ => { data := [], port := 0, flags := 0, retcode := 0 }
    set_datarate := fun _ => 0
    get_tx_metadata := fun _ => 0 }

/-- The calls that start the scheduler (a send, or arming the periodic timer) and
the call that applies the data rate. -/
def Call.isScheduleOrDatarate : Call → Bool
  | .send _ _ _ _ => true
  | .call_every _ _ => true
  | .set_datarate _ => true
  | _ => false

/-- The scheduler contract in the words of the specification, as its effect on the
transmit buffer and the queue for a send result `r`: on success the buffer is
cleared; on "would block" in duty-cycle mode the payload stays and a one-shot retry
timer of 3000 ms re-invoking the send is armed; on "would block" in fixed-interval
mode and on any other negative code the payload stays and nothing is scheduled. -/
def schedule_send_spec (duty : Bool) (r : Int) (tx : List Nat) (q : EventQueue) :
    List Nat × EventQueue :=
  if 0 ≤ r then (List.replicate 7 0, q)
  else if r = LORAWAN_STATUS_WOULD_BLOCK ∧ duty = true then
    ((tx.set 0 0x30).set 1 0,
      { q with one_shot := q.one_shot ++ [{ ms := 3000, cb := Callback.send_message }] })
  else ((tx.set 0 0x30).set 1 0, q)

/-- The transmit buffer holding the payload built by `send_message`: the character
'0' at index 0, the terminating NUL at index 1, zero elsewhere. -/
def tx_payload : List Nat := [0x30, 0, 0, 0, 0, 0, 0]

/-- The state after `n` consecutive invocations of `send_message`, the last one
outermost. -/
def send_message_repeat (cfg : Config) (eng : Engine) : Nat → State → State
  | 0, s => s
  | n + 1, s => send_message cfg eng (send_message_repeat cfg eng n s)

/-- The invariant of the transmit buffer: it is all zero or holds the payload, and
every send logged so far passed the payload with length 1 and the unconfirmed flag. -/
def tx_invariant (cfg : Config) (s : State) : Prop :=
  (s.tx_buffer = [0, 0, 0, 0, 0, 0, 0] ∨ s.tx_buffer = tx_payload) ∧
    ∀ c ∈ s.log, c.isSend = true →
      c = Call.send cfg.MBED_CONF_LORA_APP_PORT tx_payload 1 MSG_UNCONFIRMED_FLAG

/-- A stack that accepts the first send and answers every later send with "would
block"; everything else is answered with OK. -/
def engine_accept_then_block : Engine :=
  { lorawan_init := 0
    set_confirmed_msg_retries := 0
    disable_adaptive_datarate := 0
    connect := 0
    send := fun n => if n = 0 then 1 else LORAWAN_STATUS_WOULD_BLOCK
    receive := fun _ => { data := [], port := 0, flags := 0, retcode := 0 }
    set_datarate := fun _ => 0
    get_tx_metadata := fun _ => 0 }

/-- The start state with the seven bytes of tx_buffer set to 9: a buffer content that
no run of the program produces. -/
def state_tx_nines : State :=
  { State.init with tx_buffer := [9, 9, 9, 9, 9, 9, 9] }

/-! ## Basic facts -/

theorem calls_since_append (t s : State) (new : List Call) (h : t.log = s.log ++ new) :
    t.calls_since s = new := by
  simp [State.calls_since, h]

/-- Closed form of `send_message`. -/
theorem send_message_eq (cfg : Config) (eng : Engine) (s : State) :
    send_message cfg eng s =
      { tx_buffer :=
          if 0 ≤ eng.send (s.log.countP Call.isSend) then List.replicate 7 0
          else store s.tx_buffer 0 [0x30, 0]
        rx_buffer := s.rx_buffer
        ev_queue :=
          if eng.send (s.log.countP Call.isSend) = LORAWAN_STATUS_WOULD_BLOCK ∧
              cfg.MBED_CONF_LORA_DUTY_CYCLE_ON = true then
            { s.ev_queue with
              one_shot := s.ev_queue.one_shot ++ [{ ms := 3000, cb := Callback.send_message }] }
          else s.ev_queue
        log := s.log ++ send_message_calls cfg (store s.tx_buffer 0 [0x30, 0])
                (eng.send (s.log.countP Call.isSend)) } := by
  unfold send_message
  simp only [sprintf, lorawan_send, State.emit, ev_queue_call_in, memset, send_message_calls,
    LORAWAN_STATUS_WOULD_BLOCK, List.length_singleton, List.singleton_append]
  by_cases h0 : 0 ≤ eng.send (s.log.countP Call.isSend)
  · have h1 : ¬ eng.send (s.log.countP Call.isSend) < 0 := by omega
    have h2 : ¬ eng.send (s.log.countP Call.isSend) = -1001 := by omega
    simp [h0, h1, h2]
  · have h1 : eng.send (s.log.countP Call.isSend) < 0 := by omega
    by_cases h2 : eng.send (s.log.countP Call.isSend) = -1001
    · cases hd : cfg.MBED_CONF_LORA_DUTY_CYCLE_ON <;> simp [h2, hd]
    · simp [h0, h1, h2]

/-- The render loop never aborts. -/
theorem render_loop_ne_abort (retcode : Int) :
    ∀ (fuel i : Nat) (s u : State), render_loop retcode fuel i s ≠ Outcome.abort u := by
  intro fuel
  induction fuel with
  | zero =>
    intro i s u
    unfold render_loop
    split_ifs <;> simp
  | succ n ih =>
    intro i s u
    unfold render_loop
    split_ifs
    · exact ih _ _ _
    · simp

/-- The render loop only prints: it leaves the buffers and the queue alone. -/
theorem render_loop_frame (retcode : Int) :
    ∀ (fuel i : Nat) (s t : State), render_loop retcode fuel i s = Outcome.ok t →
      t.tx_buffer = s.tx_buffer ∧ t.rx_buffer = s.rx_buffer ∧ t.ev_queue = s.ev_queue ∧
        ∃ new, t.log = s.log ++ new ∧ ∀ c ∈ new, c.isDownlink = true := by
  intro fuel
  induction fuel with
  | zero =>
    intro i s t h
    unfold render_loop at h
    split_ifs at h
    simp only [Outcome.ok.injEq] at h
    subst h
    exact ⟨rfl, rfl, rfl, [], by simp, by simp⟩
  | succ n ih =>
    intro i s t h
    unfold render_loop at h
    split_ifs at h
    · obtain ⟨h1, h2, h3, new, h4, h5⟩ := ih _ _ _ h
      refine ⟨h1, h2, h3, Call.render_rx_byte i s.rx_buffer[i]? :: new, ?_, ?_⟩
      · simpa [State.emit] using h4
      · intro c hc
        rcases List.mem_cons.1 hc with rfl | hc
        · rfl
        · exact h5 c hc
    · simp only [Outcome.ok.injEq] at h
      subst h
      exact ⟨rfl, rfl, rfl, [], by simp, by simp⟩

/-- The render loop returns when the count fits the 8-bit counter and there is fuel
for the remaining iterations. -/
theorem render_loop_returns (retcode : Int) (hk : retcode ≤ 255) :
    ∀ (fuel i : Nat) (s : State), retcode - i ≤ fuel →
      ∃ t, render_loop retcode fuel i s = Outcome.ok t := by
  intro fuel
  induction fuel with
  | zero =>
    intro i s h
    unfold render_loop
    have : ¬ ((i : Int) < retcode) := by omega
    simp [this]
  | succ n ih =>
    intro i s h
    unfold render_loop
    by_cases hc : (i : Int) < retcode
    · simp only [hc, if_true]
      have hi : i + 1 < 256 := by omega
      rw [Nat.mod_eq_of_lt hi]
      apply ih
      push_cast
      omega
    · simp [hc]

/-- Frame of `receive_message`: it touches neither the transmit buffer nor the queue
and makes only downlink calls; it never aborts. -/
theorem receive_message_frame (fuel : Nat) (eng : Engine) (s t : State)
    (h : receive_message fuel eng s = Outcome.ok t) :
    t.tx_buffer = s.tx_buffer ∧ t.ev_queue = s.ev_queue ∧
      ∃ new, t.log = s.log ++ new ∧ ∀ c ∈ new, c.isDownlink = true := by
  unfold receive_message at h
  simp only [lorawan_receive] at h
  split_ifs at h with hneg
  · simp only [Outcome.ok.injEq] at h
    subst h
    refine ⟨rfl, rfl, [Call.receive 7, Call.printf Msg.receive_error
      [(eng.receive (s.log.countP Call.isReceive)).retcode]], ?_, ?_⟩
    · simp [State.emit]
    · intro c hc
      simp at hc
      rcases hc with rfl | rfl <;> rfl
  · split at h
    · rename_i u hu
      simp only [Outcome.ok.injEq] at h
      subst h
      obtain ⟨h1, _, h3, new, h4, h5⟩ := render_loop_frame _ _ _ _ _ hu
      refine ⟨by simpa [State.emit] using h1, by simpa [State.emit] using h3,
        Call.receive 7 :: Call.printf Msg.rx_data
          [((eng.receive (s.log.countP Call.isReceive)).port : Int),
            (eng.receive (s.log.countP Call.isReceive)).retcode] ::
          (new ++ [Call.printf Msg.rx_newline []]),
        ?_, ?_⟩
      · simp [State.emit] at h4 ⊢
        rw [h4]
        simp
      · intro c hc
        simp at hc
        rcases hc with rfl | rfl | hc | rfl
        · rfl
        · rfl
        · exact h5 c hc
        · rfl
    · simp at h
    · simp at h

theorem receive_message_ne_abort (fuel : Nat) (eng : Engine) (s u : State) :
    receive_message fuel eng s ≠ Outcome.abort u := by
  unfold receive_message
  simp only [lorawan_receive]
  split_ifs
  · simp
  · split
    · simp
    · rename_i v hv
      exact absurd hv (render_loop_ne_abort _ _ _ _ _)
    · simp

/-- With a count that fits the 8-bit counter and 255 units of fuel, `receive_message`
returns. -/
theorem receive_message_returns (fuel : Nat) (eng : Engine) (s : State) (hf : 255 ≤ fuel)
    (hk : (eng.receive (s.log.countP Call.isReceive)).retcode ≤ 255) :
    ∃ t, receive_message fuel eng s = Outcome.ok t := by
  unfold receive_message
  simp only [lorawan_receive]
  split_ifs
  · exact ⟨_, rfl⟩
  · obtain ⟨u, hu⟩ := render_loop_returns _ hk fuel 0
      (State.emit
        { s with
          rx_buffer := store s.rx_buffer 0
            (List.take 7 (eng.receive (s.log.countP Call.isReceive)).data)
          log := s.log ++ [Call.receive 7] }
        (Call.printf Msg.rx_data
          [((eng.receive (s.log.countP Call.isReceive)).port : Int),
            (eng.receive (s.log.countP Call.isReceive)).retcode]))
      (by push_cast; omega)
    rw [hu]
    exact ⟨_, rfl⟩

/-! ### Calls made by `send_message` -/

theorem send_message_calls_countP_isSend (cfg : Config) (buf : List Nat) (r : Int) :
    (send_message_calls cfg buf r).countP Call.isSend = 1 := by
  unfold send_message_calls
  split_ifs <;> simp [Call.isSend]

theorem send_message_calls_countP_isBreakDispatch (cfg : Config) (buf : List Nat) (r : Int) :
    (send_message_calls cfg buf r).countP Call.isBreakDispatch = 0 := by
  unfold send_message_calls
  split_ifs <;> simp [Call.isBreakDispatch]

theorem send_message_calls_countP_isSetDatarate (cfg : Config) (buf : List Nat) (r : Int) :
    (send_message_calls cfg buf r).countP Call.isSetDatarate = 0 := by
  unfold send_message_calls
  split_ifs <;> simp [Call.isSetDatarate]

theorem send_message_calls_filter_isSetDatarate (cfg : Config) (buf : List Nat) (r : Int) :
    (send_message_calls cfg buf r).filter Call.isSetDatarate = [] := by
  unfold send_message_calls
  split_ifs <;> simp [Call.isSetDatarate]

theorem send_message_calls_filter_isTimer (cfg : Config) (buf : List Nat) (r : Int) :
    (send_message_calls cfg buf r).filter Call.isTimer =
      if r = LORAWAN_STATUS_WOULD_BLOCK ∧ cfg.MBED_CONF_LORA_DUTY_CYCLE_ON = true then
        [Call.call_in 3000 Callback.send_message]
      else [] := by
  unfold send_message_calls
  by_cases h0 : 0 ≤ r
  · have h2 : ¬ r = LORAWAN_STATUS_WOULD_BLOCK := by
      simp only [LORAWAN_STATUS_WOULD_BLOCK]; omega
    simp [h0, h2, Call.isTimer]
  · by_cases h2 : r = LORAWAN_STATUS_WOULD_BLOCK
    · subst h2
      cases hd : cfg.MBED_CONF_LORA_DUTY_CYCLE_ON <;>
        simp [hd, Call.isTimer, LORAWAN_STATUS_WOULD_BLOCK]
    · simp [h0, h2, Call.isTimer]

theorem send_message_log (cfg : Config) (eng : Engine) (s : State) :
    (send_message cfg eng s).log =
      s.log ++ send_message_calls cfg (store s.tx_buffer 0 [0x30, 0])
        (eng.send (s.log.countP Call.isSend)) := by
  rw [send_message_eq]

/-! ### Case analysis on the event code -/

theorem event_cases (e : Nat) :
    e = CONNECTED ∨ e = DISCONNECTED ∨ e = TX_DONE ∨ e = TX_TIMEOUT ∨ e = TX_ERROR ∨
      e = TX_CRYPTO_ERROR ∨ e = TX_SCHEDULING_ERROR ∨ e = RX_DONE ∨ e = RX_TIMEOUT ∨
      e = RX_ERROR ∨ e = JOIN_FAILURE ∨ e = UPLINK_REQUIRED ∨ 12 ≤ e := by
  simp only [CONNECTED, DISCONNECTED, TX_DONE, TX_TIMEOUT, TX_ERROR, TX_CRYPTO_ERROR,
    TX_SCHEDULING_ERROR, RX_DONE, RX_TIMEOUT, RX_ERROR, JOIN_FAILURE, UPLINK_REQUIRED]
  omega

/-- An event code outside the twelve named ones reaches the default branch, whose
assertion has a string literal as condition: the handler returns, state untouched. -/
theorem lora_event_handler_default (fuel : Nat) (cfg : Config) (eng : Engine)
    (e : Nat) (s : State) (h : 12 ≤ e) :
    lora_event_handler fuel cfg eng e s = Outcome.ok s := by
  have h0 : e ≠ 0 := by omega
  have h1 : e ≠ 1 := by omega
  have h2 : e ≠ 2 := by omega
  have h3 : e ≠ 3 := by omega
  have h4 : e ≠ 4 := by omega
  have h5 : e ≠ 5 := by omega
  have h6 : e ≠ 6 := by omega
  have h7 : e ≠ 7 := by omega
  have h8 : e ≠ 8 := by omega
  have h9 : e ≠ 9 := by omega
  have h10 : e ≠ 10 := by omega
  have h11 : e ≠ 11 := by omega
  simp [lora_event_handler, CONNECTED, DISCONNECTED, TX_DONE, TX_TIMEOUT, TX_ERROR,
    TX_CRYPTO_ERROR, TX_SCHEDULING_ERROR, RX_DONE, RX_TIMEOUT, RX_ERROR, JOIN_FAILURE,
    UPLINK_REQUIRED, MBED_ASSERT, CExpr.truth, h0, h1, h2, h3, h4, h5, h6, h7, h8, h9, h10, h11]

theorem lora_event_handler_connected (fuel : Nat) (cfg : Config) (eng : Engine) (s : State) :
    lora_event_handler fuel cfg eng CONNECTED s =
      Outcome.ok
        (((if cfg.MBED_CONF_LORA_DUTY_CYCLE_ON then
              send_message cfg eng (s.emit (Call.printf Msg.connection_successful []))
            else
              ev_queue_call_every TX_TIMER Callback.send_message
                (s.emit (Call.printf Msg.connection_successful []))).emit
            (Call.set_datarate DR_0)).emit
          (Call.printf
            (if eng.set_datarate
                ((if cfg.MBED_CONF_LORA_DUTY_CYCLE_ON then
                    send_message cfg eng (s.emit (Call.printf Msg.connection_successful []))
                  else
                    ev_queue_call_every TX_TIMER Callback.send_message
                      (s.emit (Call.printf Msg.connection_successful []))).log.countP
                  Call.isSetDatarate) ≠ LORAWAN_STATUS_OK then Msg.set_datarate_failed
             else Msg.datarate_set) [])) := by
  simp only [lora_event_handler, if_true, lorawan_set_datarate, DATA_RATE]
  split_ifs <;> rfl

theorem lora_event_handler_disconnected (fuel : Nat) (cfg : Config) (eng : Engine)
    (s : State) :
    lora_event_handler fuel cfg eng DISCONNECTED s =
      Outcome.ok ((ev_queue_break_dispatch s).emit (Call.printf Msg.disconnected [])) := by
  rfl

theorem lora_event_handler_tx_done (fuel : Nat) (cfg : Config) (eng : Engine) (s : State) :
    lora_event_handler fuel cfg eng TX_DONE s =
      Outcome.ok
        (if cfg.MBED_CONF_LORA_DUTY_CYCLE_ON then
          send_message cfg eng
            (((s.emit (Call.printf Msg.message_sent [])).emit Call.get_tx_metadata).emit
              (Call.printf
                (if eng.get_tx_metadata (s.log.countP Call.isGetTxMetadata) = LORAWAN_STATUS_OK
                 then Msg.tx_metadata else Msg.tx_metadata_error)
                (if eng.get_tx_metadata (s.log.countP Call.isGetTxMetadata) = LORAWAN_STATUS_OK
                 then [] else [eng.get_tx_metadata (s.log.countP Call.isGetTxMetadata)])))
        else
          ((s.emit (Call.printf Msg.message_sent [])).emit Call.get_tx_metadata).emit
            (Call.printf
              (if eng.get_tx_metadata (s.log.countP Call.isGetTxMetadata) = LORAWAN_STATUS_OK
               then Msg.tx_metadata else Msg.tx_metadata_error)
              (if eng.get_tx_metadata (s.log.countP Call.isGetTxMetadata) = LORAWAN_STATUS_OK
               then [] else [eng.get_tx_metadata (s.log.countP Call.isGetTxMetadata)]))) := by
  have hc : (s.emit (Call.printf Msg.message_sent [])).log.countP Call.isGetTxMetadata =
      s.log.countP Call.isGetTxMetadata := by
    simp [State.emit, Call.isGetTxMetadata]
  simp only [lora_event_handler, CONNECTED, DISCONNECTED, TX_DONE, lorawan_get_tx_metadata, hc]
  simp only [show ¬ (2 = 0) by decide, show ¬ (2 = 1) by decide, if_false, if_true]
  split_ifs <;> rfl

theorem lora_event_handler_tx_failed (fuel : Nat) (cfg : Config) (eng : Engine) (e : Nat)
    (s : State) (h : e = TX_TIMEOUT ∨ e = TX_ERROR) :
    lora_event_handler fuel cfg eng e s =
      Outcome.ok (s.emit (Call.printf Msg.tx_error [(e : Int)])) := by
  rcases h with rfl | rfl <;> rfl

theorem lora_event_handler_send_trigger (fuel : Nat) (cfg : Config) (eng : Engine) (e : Nat)
    (s : State) (h : e = TX_CRYPTO_ERROR ∨ e = TX_SCHEDULING_ERROR) :
    lora_event_handler fuel cfg eng e s =
      Outcome.ok
        (if cfg.MBED_CONF_LORA_DUTY_CYCLE_ON then
          send_message cfg eng (s.emit (Call.printf Msg.transmission_error [(e : Int)]))
        else s.emit (Call.printf Msg.transmission_error [(e : Int)])) := by
  rcases h with rfl | rfl <;>
    cases hd : cfg.MBED_CONF_LORA_DUTY_CYCLE_ON <;>
    simp [lora_event_handler, CONNECTED, DISCONNECTED, TX_DONE, TX_TIMEOUT, TX_ERROR,
      TX_CRYPTO_ERROR, TX_SCHEDULING_ERROR, hd]

theorem lora_event_handler_rx_done (fuel : Nat) (cfg : Config) (eng : Engine) (s : State) :
    lora_event_handler fuel cfg eng RX_DONE s =
      receive_message fuel eng (s.emit (Call.printf Msg.received_message [])) := by
  rfl

theorem lora_event_handler_rx_failed (fuel : Nat) (cfg : Config) (eng : Engine) (e : Nat)
    (s : State) (h : e = RX_TIMEOUT ∨ e = RX_ERROR) :
    lora_event_handler fuel cfg eng e s =
      Outcome.ok (s.emit (Call.printf Msg.reception_error [(e : Int)])) := by
  rcases h with rfl | rfl <;> rfl

theorem lora_event_handler_join_failure (fuel : Nat) (cfg : Config) (eng : Engine)
    (s : State) :
    lora_event_handler fuel cfg eng JOIN_FAILURE s =
      Outcome.ok (s.emit (Call.printf Msg.otaa_failed [])) := by
  rfl

theorem lora_event_handler_uplink_required (fuel : Nat) (cfg : Config) (eng : Engine)
    (s : State) :
    lora_event_handler fuel cfg eng UPLINK_REQUIRED s =
      Outcome.ok
        (if cfg.MBED_CONF_LORA_DUTY_CYCLE_ON then
          send_message cfg eng (s.emit (Call.printf Msg.uplink_required []))
        else s.emit (Call.printf Msg.uplink_required [])) := by
  cases hd : cfg.MBED_CONF_LORA_DUTY_CYCLE_ON <;>
    simp [lora_event_handler, CONNECTED, DISCONNECTED, TX_DONE, TX_TIMEOUT, TX_ERROR,
      TX_CRYPTO_ERROR, TX_SCHEDULING_ERROR, RX_DONE, RX_TIMEOUT, RX_ERROR, JOIN_FAILURE,
      UPLINK_REQUIRED, hd]

theorem send_message_tx_buffer (cfg : Config) (eng : Engine) (s : State) :
    (send_message cfg eng s).tx_buffer =
      if 0 ≤ eng.send (s.log.countP Call.isSend) then List.replicate 7 0
      else store s.tx_buffer 0 [0x30, 0] := by
  rw [send_message_eq]

theorem send_message_rx_buffer (cfg : Config) (eng : Engine) (s : State) :
    (send_message cfg eng s).rx_buffer = s.rx_buffer := by
  rw [send_message_eq]

theorem send_message_ev_queue (cfg : Config) (eng : Engine) (s : State) :
    (send_message cfg eng s).ev_queue =
      if eng.send (s.log.countP Call.isSend) = LORAWAN_STATUS_WOULD_BLOCK ∧
          cfg.MBED_CONF_LORA_DUTY_CYCLE_ON = true then
        { s.ev_queue with
          one_shot := s.ev_queue.one_shot ++ [{ ms := 3000, cb := Callback.send_message }] }
      else s.ev_queue := by
  rw [send_message_eq]

/-- How the handler treats an event, in four shapes: CONNECTED, DISCONNECTED, RX_DONE,
and every other code, for which it reports and, for the triggering events in
duty-cycle mode, calls `send_message` once. -/
theorem lora_event_handler_shape (fuel : Nat) (cfg : Config) (eng : Engine) (e : Nat)
    (s : State) :
    e = CONNECTED ∨ e = DISCONNECTED ∨ e = RX_DONE ∨
      (e ≠ CONNECTED ∧ e ≠ DISCONNECTED ∧ e ≠ RX_DONE ∧
        ∃ pre : List Call, (∀ c ∈ pre, c.isReport = true) ∧
          lora_event_handler fuel cfg eng e s =
            Outcome.ok
              (if triggers_send e = true ∧ cfg.MBED_CONF_LORA_DUTY_CYCLE_ON = true then
                send_message cfg eng { s with log := s.log ++ pre }
              else { s with log := s.log ++ pre })) := by
  rcases event_cases e with h | h | h | h | h | h | h | h | h | h | h | h | h
  · exact Or.inl h
  · exact Or.inr (Or.inl h)
  · subst h
    refine Or.inr (Or.inr (Or.inr ⟨by decide, by decide, by decide,
      [Call.printf Msg.message_sent [], Call.get_tx_metadata,
        Call.printf
          (if eng.get_tx_metadata (s.log.countP Call.isGetTxMetadata) = LORAWAN_STATUS_OK
           then Msg.tx_metadata else Msg.tx_metadata_error)
          (if eng.get_tx_metadata (s.log.countP Call.isGetTxMetadata) = LORAWAN_STATUS_OK
           then [] else [eng.get_tx_metadata (s.log.countP Call.isGetTxMetadata)])], ?_, ?_⟩))
    · intro c hc
      simp at hc
      rcases hc with rfl | rfl | rfl <;> rfl
    · rw [lora_event_handler_tx_done]
      cases hd : cfg.MBED_CONF_LORA_DUTY_CYCLE_ON <;> simp [State.emit, triggers_send]
  · refine Or.inr (Or.inr (Or.inr ⟨by subst h; decide, by subst h; decide, by subst h; decide,
      [Call.printf Msg.tx_error [(e : Int)]], ?_, ?_⟩))
    · intro c hc
      simp at hc
      subst hc
      rfl
    · rw [lora_event_handler_tx_failed _ _ _ _ _ (Or.inl h)]
      subst h
      simp [State.emit, triggers_send, TX_TIMEOUT, TX_DONE, TX_CRYPTO_ERROR,
        TX_SCHEDULING_ERROR, UPLINK_REQUIRED]
  · refine Or.inr (Or.inr (Or.inr ⟨by subst h; decide, by subst h; decide, by subst h; decide,
      [Call.printf Msg.tx_error [(e : Int)]], ?_, ?_⟩))
    · intro c hc
      simp at hc
      subst hc
      rfl
    · rw [lora_event_handler_tx_failed _ _ _ _ _ (Or.inr h)]
      subst h
      simp [State.emit, triggers_send, TX_ERROR, TX_DONE, TX_CRYPTO_ERROR,
        TX_SCHEDULING_ERROR, UPLINK_REQUIRED]
  · refine Or.inr (Or.inr (Or.inr ⟨by subst h; decide, by subst h; decide, by subst h; decide,
      [Call.printf Msg.transmission_error [(e : Int)]], ?_, ?_⟩))
    · intro c hc
      simp at hc
      subst hc
      rfl
    · rw [lora_event_handler_send_trigger _ _ _ _ _ (Or.inl h)]
      subst h
      cases hd : cfg.MBED_CONF_LORA_DUTY_CYCLE_ON <;> simp [State.emit, triggers_send]
  · refine Or.inr (Or.inr (Or.inr ⟨by subst h; decide, by subst h; decide, by subst h; decide,
      [Call.printf Msg.transmission_error [(e : Int)]], ?_, ?_⟩))
    · intro c hc
      simp at hc
      subst hc
      rfl
    · rw [lora_event_handler_send_trigger _ _ _ _ _ (Or.inr h)]
      subst h
      cases hd : cfg.MBED_CONF_LORA_DUTY_CYCLE_ON <;> simp [State.emit, triggers_send]
  · exact Or.inr (Or.inr (Or.inl h))
  · refine Or.inr (Or.inr (Or.inr ⟨by subst h; decide, by subst h; decide, by subst h; decide,
      [Call.printf Msg.reception_error [(e : Int)]], ?_, ?_⟩))
    · intro c hc
      simp at hc
      subst hc
      rfl
    · rw [lora_event_handler_rx_failed _ _ _ _ _ (Or.inl h)]
      subst h
      simp [State.emit, triggers_send, RX_TIMEOUT, TX_DONE, TX_CRYPTO_ERROR,
        TX_SCHEDULING_ERROR, UPLINK_REQUIRED]
  · refine Or.inr (Or.inr (Or.inr ⟨by subst h; decide, by subst h; decide, by subst h; decide,
      [Call.printf Msg.reception_error [(e : Int)]], ?_, ?_⟩))
    · intro c hc
      simp at hc
      subst hc
      rfl
    · rw [lora_event_handler_rx_failed _ _ _ _ _ (Or.inr h)]
      subst h
      simp [State.emit, triggers_send, RX_ERROR, TX_DONE, TX_CRYPTO_ERROR,
        TX_SCHEDULING_ERROR, UPLINK_REQUIRED]
  · subst h
    refine Or.inr (Or.inr (Or.inr ⟨by decide, by decide, by decide,
      [Call.printf Msg.otaa_failed []], ?_, ?_⟩))
    · intro c hc
      simp at hc
      subst hc
      rfl
    · rw [lora_event_handler_join_failure]
      simp [State.emit, triggers_send, JOIN_FAILURE, TX_DONE, TX_CRYPTO_ERROR,
        TX_SCHEDULING_ERROR, UPLINK_REQUIRED]
  · subst h
    refine Or.inr (Or.inr (Or.inr ⟨by decide, by decide, by decide,
      [Call.printf Msg.uplink_required []], ?_, ?_⟩))
    · intro c hc
      simp at hc
      subst hc
      rfl
    · rw [lora_event_handler_uplink_required]
      cases hd : cfg.MBED_CONF_LORA_DUTY_CYCLE_ON <;> simp [State.emit, triggers_send]
  · have hne : triggers_send e = false := by
      have h2 : e ≠ 2 := by omega
      have h5 : e ≠ 5 := by omega
      have h6 : e ≠ 6 := by omega
      have h11 : e ≠ 11 := by omega
      simp [triggers_send, TX_DONE, TX_CRYPTO_ERROR, TX_SCHEDULING_ERROR, UPLINK_REQUIRED,
        h2, h5, h6, h11]
    refine Or.inr (Or.inr (Or.inr ⟨?_, ?_, ?_, [], by simp, ?_⟩))
    · simp only [CONNECTED]; omega
    · simp only [DISCONNECTED]; omega
    · simp only [RX_DONE]; omega
    · rw [lora_event_handler_default _ _ _ _ _ h]
      simp [hne]

/-! ### Lists of calls of one class -/

theorem filter_eq_nil_of_class (p q : Call → Bool) (hpq : ∀ c, q c = true → p c = false)
    (l : List Call) (h : ∀ c ∈ l, q c = true) : l.filter p = [] := by
  rw [List.filter_eq_nil_iff]
  intro c hc
  simp [hpq c (h c hc)]

theorem countP_eq_zero_of_class (p q : Call → Bool) (hpq : ∀ c, q c = true → p c = false)
    (l : List Call) (h : ∀ c ∈ l, q c = true) : l.countP p = 0 := by
  rw [List.countP_eq_zero]
  intro c hc
  simp [hpq c (h c hc)]

theorem report_not_send (c : Call) (h : c.isReport = true) : c.isSend = false := by
  cases c <;> simp_all [Call.isReport, Call.isSend]

theorem report_not_timer (c : Call) (h : c.isReport = true) : c.isTimer = false := by
  cases c <;> simp_all [Call.isReport, Call.isTimer]

theorem report_not_set_datarate (c : Call) (h : c.isReport = true) :
    c.isSetDatarate = false := by
  cases c <;> simp_all [Call.isReport, Call.isSetDatarate]

theorem report_not_break_dispatch (c : Call) (h : c.isReport = true) :
    c.isBreakDispatch = false := by
  cases c <;> simp_all [Call.isReport, Call.isBreakDispatch]

theorem downlink_not_send (c : Call) (h : c.isDownlink = true) : c.isSend = false := by
  cases c <;> simp_all [Call.isDownlink, Call.isSend]

theorem downlink_not_timer (c : Call) (h : c.isDownlink = true) : c.isTimer = false := by
  cases c <;> simp_all [Call.isDownlink, Call.isTimer]

theorem downlink_not_set_datarate (c : Call) (h : c.isDownlink = true) :
    c.isSetDatarate = false := by
  cases c <;> simp_all [Call.isDownlink, Call.isSetDatarate]

theorem downlink_not_break_dispatch (c : Call) (h : c.isDownlink = true) :
    c.isBreakDispatch = false := by
  cases c <;> simp_all [Call.isDownlink, Call.isBreakDispatch]

theorem send_message_calls_since (cfg : Config) (eng : Engine) (s : State) :
    (send_message cfg eng s).calls_since s =
      send_message_calls cfg (store s.tx_buffer 0 [0x30, 0])
        (eng.send (s.log.countP Call.isSend)) :=
  calls_since_append _ _ _ (send_message_log cfg eng s)

/-! ### Effect of one call, one handler run, one turn of the loop -/

theorem send_message_break_requested (cfg : Config) (eng : Engine) (s : State) :
    (send_message cfg eng s).ev_queue.break_requested = s.ev_queue.break_requested := by
  rw [send_message_ev_queue]
  split_ifs <;> rfl

theorem send_message_periodic (cfg : Config) (eng : Engine) (s : State) :
    (send_message cfg eng s).ev_queue.periodic = s.ev_queue.periodic := by
  rw [send_message_ev_queue]
  split_ifs <;> rfl

theorem send_message_one_shot_length (cfg : Config) (eng : Engine) (s : State) :
    (send_message cfg eng s).ev_queue.one_shot.length ≤ s.ev_queue.one_shot.length + 1 := by
  rw [send_message_ev_queue]
  split_ifs <;> simp

theorem send_message_countP_isBreakDispatch (cfg : Config) (eng : Engine) (s : State) :
    (send_message cfg eng s).log.countP Call.isBreakDispatch =
      s.log.countP Call.isBreakDispatch := by
  rw [send_message_log, List.countP_append, send_message_calls_countP_isBreakDispatch]
  rfl

theorem send_message_log_extends (cfg : Config) (eng : Engine) (s : State) :
    s.log <+: (send_message cfg eng s).log := by
  rw [send_message_log]
  exact List.prefix_append _ _

theorem calls_since_countP (p : Call → Bool) (s t : State) (h : s.log <+: t.log) :
    (t.calls_since s).countP p + s.log.countP p = t.log.countP p := by
  obtain ⟨new, hnew⟩ := h
  rw [calls_since_append t s new hnew.symm, ← hnew, List.countP_append]
  omega

/-- What a returning handler run does to the log prefix, the stop request and the
timers of the queue. -/
theorem lora_event_handler_effect (fuel : Nat) (cfg : Config) (eng : Engine) (e : Nat)
    (s t : State) (h : lora_event_handler fuel cfg eng e s = Outcome.ok t) :
    s.log <+: t.log ∧
      t.log.countP Call.isBreakDispatch =
        s.log.countP Call.isBreakDispatch + (if e = DISCONNECTED then 1 else 0) ∧
      t.ev_queue.break_requested =
        (s.ev_queue.break_requested || decide (e = DISCONNECTED)) ∧
      (cfg.MBED_CONF_LORA_DUTY_CYCLE_ON = true →
        t.ev_queue.periodic = s.ev_queue.periodic ∧
        t.ev_queue.one_shot.length ≤
          s.ev_queue.one_shot.length +
            (if (e == CONNECTED || triggers_send e) = true then 1 else 0)) := by
  rcases lora_event_handler_shape fuel cfg eng e s with
    he | he | he | ⟨h1, h2, h3, pre, hpre, heq⟩
  · subst he
    rw [lora_event_handler_connected] at h
    simp only [Outcome.ok.injEq] at h
    subst h
    cases hd : cfg.MBED_CONF_LORA_DUTY_CYCLE_ON
    · simp [State.emit, ev_queue_call_every, Call.isBreakDispatch, CONNECTED, DISCONNECTED]
    · have hp := send_message_log_extends cfg eng
        (s.emit (Call.printf Msg.connection_successful []))
      have hl := send_message_one_shot_length cfg eng
        (s.emit (Call.printf Msg.connection_successful []))
      simp only [State.emit] at hp hl
      refine ⟨?_, ?_, ?_, ?_⟩
      · simp only [State.emit, if_true]
        exact ((List.prefix_append _ _).trans hp).trans
          ((List.prefix_append _ _).trans (List.prefix_append _ _))
      · simp [State.emit, send_message_countP_isBreakDispatch, Call.isBreakDispatch, CONNECTED,
          DISCONNECTED]
      · simp [State.emit, send_message_break_requested, CONNECTED, DISCONNECTED]
      · intro _
        simpa [State.emit, send_message_periodic] using hl
  · subst he
    rw [lora_event_handler_disconnected] at h
    simp only [Outcome.ok.injEq] at h
    subst h
    simp [State.emit, ev_queue_break_dispatch, Call.isBreakDispatch, CONNECTED, DISCONNECTED,
      triggers_send, TX_DONE, TX_CRYPTO_ERROR, TX_SCHEDULING_ERROR, UPLINK_REQUIRED]
  · subst he
    rw [lora_event_handler_rx_done] at h
    obtain ⟨_, hq, new, hlog, hnew⟩ := receive_message_frame _ _ _ _ h
    have hb := countP_eq_zero_of_class Call.isBreakDispatch Call.isDownlink
      downlink_not_break_dispatch new hnew
    refine ⟨?_, ?_, ?_, ?_⟩
    · rw [hlog]
      simp only [State.emit]
      exact (List.prefix_append _ _).trans (List.prefix_append _ _)
    · simp [hlog, hb, State.emit, Call.isBreakDispatch, RX_DONE, DISCONNECTED]
    · simp [hq, State.emit, RX_DONE, DISCONNECTED]
    · intro _
      simp [hq, State.emit]
  · rw [heq] at h
    simp only [Outcome.ok.injEq] at h
    subst h
    have hb := countP_eq_zero_of_class Call.isBreakDispatch Call.isReport
      report_not_break_dispatch pre hpre
    by_cases hc : triggers_send e = true ∧ cfg.MBED_CONF_LORA_DUTY_CYCLE_ON = true
    · have hp := send_message_log_extends cfg eng { s with log := s.log ++ pre }
      have hl := send_message_one_shot_length cfg eng { s with log := s.log ++ pre }
      simp only [hc, and_self, if_true]
      refine ⟨(List.prefix_append _ _).trans hp, ?_, ?_, ?_⟩
      · simp [send_message_countP_isBreakDispatch, hb, h2]
      · simp [send_message_break_requested, h2]
      · intro _
        simpa [send_message_periodic, hc.1] using hl
    · simp only [hc, if_false]
      refine ⟨List.prefix_append _ _, ?_, ?_, ?_⟩
      · simp [hb, h2]
      · simp [h2]
      · intro _
        simp

/-- The handler never aborts, and fails to return on RX_DONE only. -/
theorem lora_event_handler_outcome (fuel : Nat) (cfg : Config) (eng : Engine) (e : Nat)
    (s : State) :
    (∀ u, lora_event_handler fuel cfg eng e s ≠ Outcome.abort u) ∧
      (lora_event_handler fuel cfg eng e s = Outcome.out_of_fuel → e = RX_DONE) := by
  rcases lora_event_handler_shape fuel cfg eng e s with
    he | he | he | ⟨h1, h2, h3, pre, hpre, heq⟩
  · subst he
    rw [lora_event_handler_connected]
    simp
  · subst he
    rw [lora_event_handler_disconnected]
    simp
  · subst he
    rw [lora_event_handler_rx_done]
    exact ⟨fun u => receive_message_ne_abort _ _ _ _, fun _ => rfl⟩
  · rw [heq]
    simp

/-- With counts that fit the 8-bit counter and 255 units of fuel the handler returns
on every event. -/
theorem lora_event_handler_returns (fuel : Nat) (cfg : Config) (eng : Engine) (e : Nat)
    (s : State) (hf : 255 ≤ fuel) (hk : ∀ n, (eng.receive n).retcode ≤ 255) :
    ∃ t, lora_event_handler fuel cfg eng e s = Outcome.ok t := by
  rcases lora_event_handler_shape fuel cfg eng e s with
    he | he | he | ⟨h1, h2, h3, pre, hpre, heq⟩
  · subst he
    exact ⟨_, lora_event_handler_connected _ _ _ _⟩
  · subst he
    exact ⟨_, lora_event_handler_disconnected _ _ _ _⟩
  · subst he
    rw [lora_event_handler_rx_done]
    exact receive_message_returns _ _ _ hf (hk _)
  · exact ⟨_, heq⟩

/-- What a returning turn of the loop does. -/
theorem dispatch_step_effect (fuel : Nat) (cfg : Config) (eng : Engine) (i : Input)
    (s t : State) (h : dispatch_step fuel cfg eng s i = Outcome.ok t) :
    s.log <+: t.log ∧
      t.log.countP Call.isBreakDispatch =
        s.log.countP Call.isBreakDispatch +
          (if i = Input.event DISCONNECTED then 1 else 0) ∧
      t.ev_queue.break_requested =
        (s.ev_queue.break_requested || decide (i = Input.event DISCONNECTED)) ∧
      (cfg.MBED_CONF_LORA_DUTY_CYCLE_ON = true → s.ev_queue.periodic = [] →
        t.ev_queue.periodic = [] ∧
        t.ev_queue.one_shot.length ≤
          s.ev_queue.one_shot.length + (if i.may_arm_retry = true then 1 else 0)) := by
  cases i with
  | event e =>
    obtain ⟨h1, h2, h3, h4⟩ := lora_event_handler_effect fuel cfg eng e s t h
    refine ⟨h1, ?_, ?_, ?_⟩
    · simpa using h2
    · simpa using h3
    · intro hd hp
      obtain ⟨h5, h6⟩ := h4 hd
      exact ⟨h5.trans hp, by simpa [Input.may_arm_retry] using h6⟩
  | one_shot =>
    simp only [dispatch_step] at h
    split at h
    · simp only [Outcome.ok.injEq] at h
      subst h
      simp [Input.may_arm_retry]
    · rename_i tm rest hq
      simp only [Outcome.ok.injEq] at h
      subst h
      cases hcb : tm.cb
      simp only [run_callback]
      have hl := send_message_one_shot_length cfg eng
        { s with ev_queue := { s.ev_queue with one_shot := rest } }
      refine ⟨send_message_log_extends cfg eng
        { s with ev_queue := { s.ev_queue with one_shot := rest } }, ?_, ?_, ?_⟩
      · simp [send_message_countP_isBreakDispatch]
      · simp [send_message_break_requested]
      · intro _ hp
        refine ⟨by simpa [send_message_periodic] using hp, ?_⟩
        simp only [hq, List.length_cons, Input.may_arm_retry]
        simpa using hl
  | periodic k =>
    simp only [dispatch_step] at h
    split at h
    · simp only [Outcome.ok.injEq] at h
      subst h
      simp [Input.may_arm_retry]
    · rename_i tm hq
      simp only [Outcome.ok.injEq] at h
      subst h
      cases hcb : tm.cb
      simp only [run_callback]
      refine ⟨send_message_log_extends _ _ _, ?_, ?_, ?_⟩
      · simp [send_message_countP_isBreakDispatch]
      · simp [send_message_break_requested]
      · intro _ hp
        simp [hp] at hq

/-- A turn of the loop never aborts, and fails to return on an RX_DONE delivery only. -/
theorem dispatch_step_outcome (fuel : Nat) (cfg : Config) (eng : Engine) (i : Input)
    (s : State) :
    (∀ u, dispatch_step fuel cfg eng s i ≠ Outcome.abort u) ∧
      (dispatch_step fuel cfg eng s i = Outcome.out_of_fuel → i = Input.event RX_DONE) := by
  cases i with
  | event e =>
    obtain ⟨h1, h2⟩ := lora_event_handler_outcome fuel cfg eng e s
    exact ⟨h1, fun h => by rw [h2 h]⟩
  | one_shot =>
    simp only [dispatch_step]
    split <;> simp
  | periodic k =>
    simp only [dispatch_step]
    split <;> simp

theorem dispatch_step_returns (fuel : Nat) (cfg : Config) (eng : Engine) (i : Input)
    (s : State) (hf : 255 ≤ fuel) (hk : ∀ n, (eng.receive n).retcode ≤ 255) :
    ∃ t, dispatch_step fuel cfg eng s i = Outcome.ok t := by
  cases i with
  | event e => exact lora_event_handler_returns fuel cfg eng e s hf hk
  | one_shot =>
    simp only [dispatch_step]
    split <;> exact ⟨_, rfl⟩
  | periodic k =>
    simp only [dispatch_step]
    split <;> exact ⟨_, rfl⟩

/-- Once the stop has been requested the loop takes no further input. -/
theorem dispatch_forever_stopped (fuel : Nat) (cfg : Config) (eng : Engine)
    (inputs : List Input) (s : State) (h : s.ev_queue.break_requested = true) :
    dispatch_forever fuel cfg eng inputs s = Outcome.ok s := by
  cases inputs <;> simp [dispatch_forever, h]

/-- The loop never aborts, and fails to return only if an RX_DONE is among its inputs. -/
theorem dispatch_forever_outcome (fuel : Nat) (cfg : Config) (eng : Engine) :
    ∀ (inputs : List Input) (s : State),
      (∀ u, dispatch_forever fuel cfg eng inputs s ≠ Outcome.abort u) ∧
        (dispatch_forever fuel cfg eng inputs s = Outcome.out_of_fuel →
          Input.event RX_DONE ∈ inputs) := by
  intro inputs
  induction inputs with
  | nil =>
    intro s
    simp [dispatch_forever]
  | cons i rest ih =>
    intro s
    obtain ⟨ha, hf⟩ := dispatch_step_outcome fuel cfg eng i s
    simp only [dispatch_forever]
    split_ifs
    · simp
    · cases hs : dispatch_step fuel cfg eng s i with
      | ok s1 =>
        obtain ⟨ha1, hf1⟩ := ih s1
        exact ⟨ha1, fun h => List.mem_cons_of_mem _ (hf1 h)⟩
      | abort u => exact absurd hs (ha u)
      | out_of_fuel =>
        refine ⟨by simp, fun _ => ?_⟩
        rw [hf hs]
        exact List.mem_cons_self _ _

theorem dispatch_forever_returns (fuel : Nat) (cfg : Config) (eng : Engine) (hf : 255 ≤ fuel)
    (hk : ∀ n, (eng.receive n).retcode ≤ 255) :
    ∀ (inputs : List Input) (s : State), ∃ t, dispatch_forever fuel cfg eng inputs s = Outcome.ok t := by
  intro inputs
  induction inputs with
  | nil => exact fun s => ⟨s, rfl⟩
  | cons i rest ih =>
    intro s
    simp only [dispatch_forever]
    split_ifs
    · exact ⟨s, rfl⟩
    · obtain ⟨s1, hs1⟩ := dispatch_step_returns fuel cfg eng i s hf hk
      rw [hs1]
      exact ih s1

/-- Stop request and calls of break_dispatch over a returning run of the loop that
starts with no stop requested. -/
theorem dispatch_forever_break (fuel : Nat) (cfg : Config) (eng : Engine) :
    ∀ (inputs : List Input) (s t : State), s.ev_queue.break_requested = false →
      dispatch_forever fuel cfg eng inputs s = Outcome.ok t →
      s.log <+: t.log ∧
        (t.ev_queue.break_requested = true ↔ Input.event DISCONNECTED ∈ inputs) ∧
        t.log.countP Call.isBreakDispatch =
          s.log.countP Call.isBreakDispatch +
            (if Input.event DISCONNECTED ∈ inputs then 1 else 0) := by
  intro inputs
  induction inputs with
  | nil =>
    intro s t hb h
    simp only [dispatch_forever, Outcome.ok.injEq] at h
    subst h
    simp [hb]
  | cons i rest ih =>
    intro s t hb h
    simp only [dispatch_forever, hb] at h
    cases hs : dispatch_step fuel cfg eng s i with
    | ok s1 =>
      rw [hs] at h
      simp only [Bool.false_eq_true, if_false] at h
      obtain ⟨h1, h2, h3, _⟩ := dispatch_step_effect fuel cfg eng i s s1 hs
      by_cases hi : i = Input.event DISCONNECTED
      · have hb1 : s1.ev_queue.break_requested = true := by simp [h3, hi]
        rw [dispatch_forever_stopped fuel cfg eng rest s1 hb1] at h
        simp only [Outcome.ok.injEq] at h
        subst h
        refine ⟨h1, ?_, ?_⟩
        · simp [hb1, hi]
        · simp [h2, hi]
      · have hb1 : s1.ev_queue.break_requested = false := by simp [h3, hi, hb]
        obtain ⟨h4, h5, h6⟩ := ih s1 t hb1 h
        refine ⟨h1.trans h4, ?_, ?_⟩
        · rw [h5]
          simp [List.mem_cons, Ne.symm hi]
        · rw [h6, h2]
          simp [List.mem_cons, Ne.symm hi, hi]
    | abort u =>
      rw [hs] at h
      simp at h
    | out_of_fuel =>
      rw [hs] at h
      simp at h

/-- What follows a delivered DISCONNECTED in the inputs is never taken. -/
theorem dispatch_forever_after_disconnected (fuel : Nat) (cfg : Config) (eng : Engine)
    (post : List Input) :
    ∀ (pre : List Input) (s : State),
      dispatch_forever fuel cfg eng (pre ++ Input.event DISCONNECTED :: post) s =
        dispatch_forever fuel cfg eng (pre ++ [Input.event DISCONNECTED]) s := by
  intro pre
  induction pre with
  | nil =>
    intro s
    simp only [List.nil_append, dispatch_forever, dispatch_step, lora_event_handler_disconnected]
    split_ifs
    · rfl
    · rw [dispatch_forever_stopped _ _ _ post _ (by simp [State.emit, ev_queue_break_dispatch])]
  | cons i rest ih =>
    intro s
    simp only [List.cons_append, dispatch_forever]
    split_ifs
    · rfl
    · cases hs : dispatch_step fuel cfg eng s i with
      | ok s1 => exact ih s1
      | abort u => rfl
      | out_of_fuel => rfl

/-! ## Properties of the specification -/

/-- C1, as the code behaves: for every event code outside the twelve named events
(every code from 12 on) the handler reaches the default branch, where the assertion
has the string literal as its condition and therefore holds; the handler returns
normally with the state untouched, and the dispatch loop goes on with the next
input. -/
theorem unknown_event_returns_normally (fuel : Nat) (cfg : Config) (eng : Engine) (n : Nat)
    (s : State) (rest : List Input) :
    lora_event_handler fuel cfg eng (12 + n) s = Outcome.ok s ∧
      dispatch_forever fuel cfg eng (Input.event (12 + n) :: rest) s =
        dispatch_forever fuel cfg eng rest s := by
  have h := lora_event_handler_default fuel cfg eng (12 + n) s (by omega)
  refine ⟨h, ?_⟩
  cases hb : s.ev_queue.break_requested
  · simp [dispatch_forever, dispatch_step, hb, h]
  · cases rest <;> simp [dispatch_forever, hb]

/-- C3, counterexample: in duty-cycle mode, from the start state, a TX_DONE whose send
is answered "would block" leaves the payload byte 0x30 in tx_buffer. -/
theorem tx_done_would_block_keeps_payload :
    ∃ t, lora_event_handler 0 config_duty_cycle engine_would_block TX_DONE State.init =
        Outcome.ok t ∧
      t.tx_buffer = [0x30, 0, 0, 0, 0, 0, 0] ∧ t.tx_buffer ≠ List.replicate 7 0 := by
  refine ⟨_, rfl, ?_, ?_⟩ <;> decide

/-- C3, amended: the handler returns on TX_DONE; in duty-cycle mode tx_buffer is all
zero afterwards when the send it makes returns a non-negative count, and holds the
payload just built (0x30 at index 0, NUL at index 1, the rest as before) when that
send returns a negative code; in fixed-interval mode TX_DONE leaves tx_buffer as it
was. -/
theorem tx_done_tx_buffer (fuel : Nat) (cfg : Config) (eng : Engine) (s : State) :
    ∃ t, lora_event_handler fuel cfg eng TX_DONE s = Outcome.ok t ∧
      t.tx_buffer =
        if cfg.MBED_CONF_LORA_DUTY_CYCLE_ON = true then
          (if 0 ≤ eng.send (s.log.countP Call.isSend) then List.replicate 7 0
           else (s.tx_buffer.set 0 0x30).set 1 0)
        else s.tx_buffer := by
  refine ⟨_, lora_event_handler_tx_done fuel cfg eng s, ?_⟩
  cases hd : cfg.MBED_CONF_LORA_DUTY_CYCLE_ON <;>
    simp [send_message_tx_buffer, State.emit, Call.isSend, store]

/-- C4: in duty-cycle mode the handler returns on TX_DONE having called the stack's
send exactly once, whatever get_tx_metadata and the send itself return. -/
theorem tx_done_sends_once (fuel : Nat) (port : Nat) (eng : Engine) (s : State) :
    ∃ t, lora_event_handler fuel (Config.mk true port) eng TX_DONE s = Outcome.ok t ∧
      (t.calls_since s).countP Call.isSend = 1 := by
  refine ⟨_, lora_event_handler_tx_done fuel _ eng s, ?_⟩
  simp [State.calls_since, send_message_log, State.emit, Call.isSend,
    send_message_calls_countP_isSend]

/-- C6: one call of send_message makes exactly one call of send; with r the result of
that send, the timer calls it makes are the single one-shot call_in(3000, send_message)
when r is would-block and duty-cycle mode is on, and none otherwise (would-block in
fixed-interval mode, any other negative r, any success); the queue changes
accordingly. -/
theorem send_message_retry_policy (cfg : Config) (eng : Engine) (s : State) :
    ((send_message cfg eng s).calls_since s).countP Call.isSend = 1 ∧
      ((send_message cfg eng s).calls_since s).filter Call.isTimer =
        (if eng.send (s.log.countP Call.isSend) = LORAWAN_STATUS_WOULD_BLOCK ∧
            cfg.MBED_CONF_LORA_DUTY_CYCLE_ON = true then
          [Call.call_in 3000 Callback.send_message]
        else []) ∧
      (send_message cfg eng s).ev_queue =
        (if eng.send (s.log.countP Call.isSend) = LORAWAN_STATUS_WOULD_BLOCK ∧
            cfg.MBED_CONF_LORA_DUTY_CYCLE_ON = true then
          { s.ev_queue with
            one_shot := s.ev_queue.one_shot ++ [{ ms := 3000, cb := Callback.send_message }] }
        else s.ev_queue) := by
  rw [send_message_calls_since]
  exact ⟨send_message_calls_countP_isSend _ _ _, send_message_calls_filter_isTimer _ _ _,
    send_message_ev_queue _ _ _⟩

/-- C7: for every prior content of tx_buffer, when the send returns a non-negative
count, send_message leaves tx_buffer as seven zero bytes, arms no timer (no timer call,
queue unchanged) and calls send exactly once. -/
theorem send_message_success (cfg : Config) (eng : Engine) (s : State)
    (h : 0 ≤ eng.send (s.log.countP Call.isSend)) :
    (send_message cfg eng s).tx_buffer = [0, 0, 0, 0, 0, 0, 0] ∧
      ((send_message cfg eng s).calls_since s).filter Call.isTimer = [] ∧
      (send_message cfg eng s).ev_queue = s.ev_queue ∧
      ((send_message cfg eng s).calls_since s).countP Call.isSend = 1 := by
  have hwb : ¬ eng.send (s.log.countP Call.isSend) = LORAWAN_STATUS_WOULD_BLOCK := by
    simp only [LORAWAN_STATUS_WOULD_BLOCK]; omega
  rw [send_message_calls_since, send_message_tx_buffer, send_message_ev_queue,
    send_message_calls_filter_isTimer, send_message_calls_countP_isSend]
  simp [h, hwb]

/-- C7, witness: from the start state, with a stack that accepts the send. -/
theorem send_message_success_witness :
    0 ≤ engine_accepting.send (State.init.log.countP Call.isSend) ∧
      (send_message config_duty_cycle engine_accepting State.init).tx_buffer =
        [0, 0, 0, 0, 0, 0, 0] ∧
      ((send_message config_duty_cycle engine_accepting State.init).calls_since
        State.init).filter Call.isTimer = [] ∧
      (send_message config_duty_cycle engine_accepting State.init).ev_queue =
        State.init.ev_queue ∧
      ((send_message config_duty_cycle engine_accepting State.init).calls_since
        State.init).countP Call.isSend = 1 :=
  ⟨by decide, send_message_success config_duty_cycle engine_accepting State.init (by decide)⟩

/-- C5: in fixed-interval mode (duty cycle off), for every event code, the handler
calls neither send_message nor the stack's send (each call of send_message makes one
call of send, so no send in the log means no send_message); its only timer call is
call_every(30000, send_message), made once on CONNECTED and on no other event; it arms
no one-shot timer.  The handler never aborts and fails to return at most on
RX_DONE. -/
theorem fixed_interval_handler_never_sends (fuel : Nat) (port : Nat) (eng : Engine) (e : Nat)
    (s : State) :
    match lora_event_handler fuel (Config.mk false port) eng e s with
    | Outcome.ok t =>
      (t.calls_since s).countP Call.isSend = 0 ∧
        (t.calls_since s).filter Call.isTimer =
          (if e = CONNECTED then [Call.call_every 30000 Callback.send_message] else []) ∧
        t.ev_queue.one_shot = s.ev_queue.one_shot ∧
        t.ev_queue.periodic =
          (if e = CONNECTED then
            s.ev_queue.periodic ++ [{ ms := 30000, cb := Callback.send_message }]
          else s.ev_queue.periodic)
    | Outcome.abort _ => False
    | Outcome.out_of_fuel => e = RX_DONE := by
  rcases lora_event_handler_shape fuel (Config.mk false port) eng e s with
    h | h | h | ⟨h1, h2, h3, pre, hpre, heq⟩
  · subst h
    rw [lora_event_handler_connected]
    simp [State.calls_since, State.emit, ev_queue_call_every, Call.isSend, Call.isTimer,
      TX_TIMER]
  · subst h
    rw [lora_event_handler_disconnected]
    simp [State.calls_since, State.emit, ev_queue_break_dispatch, Call.isSend, Call.isTimer,
      CONNECTED, DISCONNECTED]
  · subst h
    rw [lora_event_handler_rx_done]
    cases hr : receive_message fuel eng (s.emit (Call.printf Msg.received_message [])) with
    | ok t =>
      obtain ⟨_, hq, new, hlog, hnew⟩ := receive_message_frame _ _ _ _ hr
      have hc : t.calls_since s = Call.printf Msg.received_message [] :: new :=
        calls_since_append _ _ _ (by simp [hlog, State.emit])
      have h1 := countP_eq_zero_of_class Call.isSend Call.isDownlink downlink_not_send new hnew
      have h2 := filter_eq_nil_of_class Call.isTimer Call.isDownlink downlink_not_timer new hnew
      simp [hc, hq, h1, h2, State.emit, Call.isSend, Call.isTimer, CONNECTED, RX_DONE]
    | abort u => exact absurd hr (receive_message_ne_abort _ _ _ _)
    | out_of_fuel => rfl
  · rw [heq]
    have hc : State.calls_since { s with log := s.log ++ pre } s = pre :=
      calls_since_append _ _ _ rfl
    have h4 := countP_eq_zero_of_class Call.isSend Call.isReport report_not_send pre hpre
    have h5 := filter_eq_nil_of_class Call.isTimer Call.isReport report_not_timer pre hpre
    simp [hc, h1, h4, h5]

/-- C9: on every CONNECTED event, in both scheduling modes and whatever the stack
returns (to the first send in particular), the handler returns having called
set_datarate exactly once, with DR_0; on every other event code it makes no call of
set_datarate.  The handler never aborts and fails to return at most on RX_DONE. -/
theorem set_datarate_exactly_on_connected (fuel : Nat) (cfg : Config) (eng : Engine)
    (e : Nat) (s : State) :
    match lora_event_handler fuel cfg eng e s with
    | Outcome.ok t =>
      (t.calls_since s).filter Call.isSetDatarate =
        if e = CONNECTED then [Call.set_datarate DR_0] else []
    | Outcome.abort _ => False
    | Outcome.out_of_fuel => e = RX_DONE := by
  rcases lora_event_handler_shape fuel cfg eng e s with
    h | h | h | ⟨h1, h2, h3, pre, hpre, heq⟩
  · subst h
    rw [lora_event_handler_connected]
    cases hd : cfg.MBED_CONF_LORA_DUTY_CYCLE_ON <;>
      simp [-List.filter_eq_nil_iff, State.calls_since, State.emit, send_message_log,
        ev_queue_call_every, send_message_calls_filter_isSetDatarate, Call.isSetDatarate]
  · subst h
    rw [lora_event_handler_disconnected]
    simp [-List.filter_eq_nil_iff, State.calls_since, State.emit, ev_queue_break_dispatch,
      Call.isSetDatarate, CONNECTED, DISCONNECTED]
  · subst h
    rw [lora_event_handler_rx_done]
    cases hr : receive_message fuel eng (s.emit (Call.printf Msg.received_message [])) with
    | ok t =>
      obtain ⟨_, _, new, hlog, hnew⟩ := receive_message_frame _ _ _ _ hr
      have hc : t.calls_since s = Call.printf Msg.received_message [] :: new :=
        calls_since_append _ _ _ (by simp [hlog, State.emit])
      have h2 := filter_eq_nil_of_class Call.isSetDatarate Call.isDownlink
        downlink_not_set_datarate new hnew
      simp [-List.filter_eq_nil_iff, hc, h2, Call.isSetDatarate, CONNECTED, RX_DONE]
    | abort u => exact absurd hr (receive_message_ne_abort _ _ _ _)
    | out_of_fuel => rfl
  · rw [heq]
    have h5 := filter_eq_nil_of_class Call.isSetDatarate Call.isReport report_not_set_datarate
      pre hpre
    by_cases hc : triggers_send e = true ∧ cfg.MBED_CONF_LORA_DUTY_CYCLE_ON = true
    · simp only [hc, and_self, if_true, h1, if_false]
      rw [calls_since_append _ s _
        ((send_message_log cfg eng _).trans (List.append_assoc _ _ _))]
      rw [List.filter_append, h5, send_message_calls_filter_isSetDatarate]
      rfl
    · simp only [hc, if_false, h1]
      rw [calls_since_append _ s pre rfl, h5]

/-- C10, counterexample: from the start state, in duty-cycle mode with a stack that
accepts the send, the handler returns on TX_DONE without any call of set_datarate. -/
theorem tx_done_without_set_datarate :
    ∃ t, lora_event_handler 0 config_duty_cycle engine_accepting TX_DONE State.init =
        Outcome.ok t ∧
      (t.calls_since State.init).any Call.isSetDatarate = false := by
  refine ⟨_, rfl, ?_⟩
  decide

/-- C10, amended: the fixed data rate is re-applied after a successful join only.  On
TX_DONE the handler returns without any call of set_datarate, in both modes and
whatever the stack returns; on CONNECTED it returns having called set_datarate(DR_0)
once. -/
theorem tx_done_no_set_datarate (fuel : Nat) (cfg : Config) (eng : Engine) (s : State) :
    (∃ t, lora_event_handler fuel cfg eng TX_DONE s = Outcome.ok t ∧
        (t.calls_since s).countP Call.isSetDatarate = 0) ∧
      (∃ t, lora_event_handler fuel cfg eng CONNECTED s = Outcome.ok t ∧
        (t.calls_since s).filter Call.isSetDatarate = [Call.set_datarate DR_0]) := by
  constructor
  · refine ⟨_, lora_event_handler_tx_done fuel cfg eng s, ?_⟩
    cases hd : cfg.MBED_CONF_LORA_DUTY_CYCLE_ON <;>
      simp [State.calls_since, State.emit, send_message_log,
        send_message_calls_countP_isSetDatarate, Call.isSetDatarate]
  · refine ⟨_, lora_event_handler_connected fuel cfg eng s, ?_⟩
    cases hd : cfg.MBED_CONF_LORA_DUTY_CYCLE_ON <;>
      simp [-List.filter_eq_nil_iff, State.calls_since, State.emit, send_message_log,
        ev_queue_call_every, send_message_calls_filter_isSetDatarate, Call.isSetDatarate]

/-- C2: break_dispatch is called exactly when a DISCONNECTED event is delivered.  For
every event code the handler, when it returns, has called break_dispatch once if the
event is DISCONNECTED and not at all otherwise (it never aborts and fails to return
at most on RX_DONE); send_message and receive_message never call it.  A run of the
dispatch loop over any inputs, from a state with no stop requested, ends with the
stop requested if and only if a DISCONNECTED event is among the inputs, and has then
called break_dispatch exactly once; whatever follows the DISCONNECTED in the inputs
(events, timer expiries) is not processed, and a stopped loop processes nothing.
With receive counts that fit the 8-bit render counter the run returns. -/
theorem break_dispatch_iff_disconnected (fuel : Nat) (cfg : Config) (eng : Engine) (e : Nat)
    (inputs post : List Input) (s : State) (hs : s.ev_queue.break_requested = false) :
    (match lora_event_handler fuel cfg eng e s with
      | Outcome.ok t =>
        (t.calls_since s).countP Call.isBreakDispatch = (if e = DISCONNECTED then 1 else 0)
      | Outcome.abort _ => False
      | Outcome.out_of_fuel => e = RX_DONE) ∧
      ((send_message cfg eng s).calls_since s).countP Call.isBreakDispatch = 0 ∧
      (match receive_message fuel eng s with
        | Outcome.ok t => (t.calls_since s).countP Call.isBreakDispatch = 0
        | Outcome.abort _ => False
        | Outcome.out_of_fuel => True) ∧
      (match dispatch_forever fuel cfg eng inputs s with
        | Outcome.ok t =>
          (t.ev_queue.break_requested = true ↔ Input.event DISCONNECTED ∈ inputs) ∧
            (t.calls_since s).countP Call.isBreakDispatch =
              (if Input.event DISCONNECTED ∈ inputs then 1 else 0)
        | Outcome.abort _ => False
        | Outcome.out_of_fuel => Input.event RX_DONE ∈ inputs) ∧
      dispatch_forever fuel cfg eng (inputs ++ Input.event DISCONNECTED :: post) s =
        dispatch_forever fuel cfg eng (inputs ++ [Input.event DISCONNECTED]) s ∧
      (∀ u : State, u.ev_queue.break_requested = true →
        dispatch_forever fuel cfg eng inputs u = Outcome.ok u) ∧
      (255 ≤ fuel → (∀ n, (eng.receive n).retcode ≤ 255) →
        ∃ t, dispatch_forever fuel cfg eng inputs s = Outcome.ok t) := by
  refine ⟨?_, ?_, ?_, ?_, dispatch_forever_after_disconnected fuel cfg eng post inputs s,
    fun u hu => dispatch_forever_stopped fuel cfg eng inputs u hu,
    fun hf hk => dispatch_forever_returns fuel cfg eng hf hk inputs s⟩
  · cases h : lora_event_handler fuel cfg eng e s with
    | ok t =>
      obtain ⟨h1, h2, _, _⟩ := lora_event_handler_effect fuel cfg eng e s t h
      have h3 := calls_since_countP Call.isBreakDispatch s t h1
      simp only
      omega
    | abort u => exact absurd h ((lora_event_handler_outcome fuel cfg eng e s).1 u)
    | out_of_fuel => exact (lora_event_handler_outcome fuel cfg eng e s).2 h
  · rw [send_message_calls_since]
    exact send_message_calls_countP_isBreakDispatch _ _ _
  · cases h : receive_message fuel eng s with
    | ok t =>
      obtain ⟨_, _, new, hlog, hnew⟩ := receive_message_frame fuel eng s t h
      simp only
      rw [calls_since_append t s new hlog]
      exact countP_eq_zero_of_class Call.isBreakDispatch Call.isDownlink
        downlink_not_break_dispatch new hnew
    | abort u => exact absurd h (receive_message_ne_abort _ _ _ _)
    | out_of_fuel => trivial
  · cases h : dispatch_forever fuel cfg eng inputs s with
    | ok t =>
      obtain ⟨h1, h2, h3⟩ := dispatch_forever_break fuel cfg eng inputs s t hs h
      have h4 := calls_since_countP Call.isBreakDispatch s t h1
      refine ⟨h2, ?_⟩
      omega
    | abort u => exact absurd h ((dispatch_forever_outcome fuel cfg eng inputs s).1 u)
    | out_of_fuel => exact (dispatch_forever_outcome fuel cfg eng inputs s).2 h

/-- C2, witness: duty-cycle mode, a stack answering "would block"; TX_DONE arms the
retry timer, DISCONNECTED stops the loop, and the timer expiry that follows is not
processed: one send, one break_dispatch, the retry timer still armed. -/
theorem break_dispatch_iff_disconnected_witness :
    State.init.ev_queue.break_requested = false ∧
      dispatch_forever 255 config_duty_cycle engine_would_block
          ([Input.event TX_DONE] ++ Input.event DISCONNECTED :: [Input.one_shot]) State.init =
        dispatch_forever 255 config_duty_cycle engine_would_block
          ([Input.event TX_DONE] ++ [Input.event DISCONNECTED]) State.init ∧
      ∃ t, dispatch_forever 255 config_duty_cycle engine_would_block
            [Input.event TX_DONE, Input.event DISCONNECTED, Input.one_shot] State.init =
          Outcome.ok t ∧
        t.ev_queue.break_requested = true ∧ t.log.countP Call.isSend = 1 ∧
          t.log.countP Call.isBreakDispatch = 1 ∧ t.ev_queue.one_shot.length = 1 :=
  ⟨rfl,
    (break_dispatch_iff_disconnected 255 config_duty_cycle engine_would_block DISCONNECTED
      [Input.event TX_DONE] [Input.one_shot] State.init rfl).2.2.2.2.1,
    ⟨_, rfl, by decide⟩⟩

/-- With a count `k` that fits the 8-bit counter, the loop entered at counter `i` with
`n` items to go and fuel for them returns after rendering exactly those `n` items. -/
theorem render_loop_exact (k : Nat) (hk : k ≤ 255) :
    ∀ (n i fuel : Nat) (s : State), i + n = k → n ≤ fuel →
      render_loop (k : Int) fuel i s =
        Outcome.ok { s with log := s.log ++ render_calls s.rx_buffer i n } := by
  intro n
  induction n with
  | zero =>
    intro i fuel s hi _
    have hc : ¬ ((i : Int) < (k : Int)) := by omega
    cases fuel <;> simp [render_loop, hc, render_calls]
  | succ m ih =>
    intro i fuel s hi hf
    obtain ⟨f, rfl⟩ : ∃ f, fuel = f + 1 := ⟨fuel - 1, by omega⟩
    have hc : (i : Int) < (k : Int) := by omega
    have hm : (i + 1) % 256 = i + 1 := Nat.mod_eq_of_lt (by omega)
    simp only [render_loop, hc, if_true, hm]
    rw [ih (i + 1) f _ (by omega) (by omega)]
    simp [State.emit, render_calls, List.range'_succ]

/-- With less fuel than items to go the loop does not get to its exit. -/
theorem render_loop_short (k : Nat) (hk : k ≤ 255) :
    ∀ (fuel n i : Nat) (s : State), i + n = k → fuel < n →
      render_loop (k : Int) fuel i s = Outcome.out_of_fuel := by
  intro fuel
  induction fuel with
  | zero =>
    intro n i s hi hf
    have hc : (i : Int) < (k : Int) := by omega
    simp [render_loop, hc]
  | succ f ih =>
    intro n i s hi hf
    have hc : (i : Int) < (k : Int) := by omega
    have hm : (i + 1) % 256 = i + 1 := Nat.mod_eq_of_lt (by omega)
    simp only [render_loop, hc, if_true, hm]
    exact ih (n - 1) (i + 1) _ (by omega) (by omega)

/-- With a count above 255 the 8-bit counter never reaches it: no amount of fuel makes
the loop return. -/
theorem render_loop_diverges (k : Int) (hk : 256 ≤ k) :
    ∀ (fuel i : Nat) (s : State), i < 256 →
      render_loop k fuel i s = Outcome.out_of_fuel := by
  intro fuel
  induction fuel with
  | zero =>
    intro i s hi
    have hc : (i : Int) < k := by omega
    simp [render_loop, hc]
  | succ f ih =>
    intro i s hi
    have hc : (i : Int) < k := by omega
    simp only [render_loop, hc, if_true]
    exact ih _ _ (Nat.mod_lt _ (by decide))

/-! ### Closed forms of `receive_message` -/

theorem store_length : ∀ (bs buf : List Nat) (i : Nat), (store buf i bs).length = buf.length := by
  intro bs
  induction bs with
  | nil => intro buf i; rfl
  | cons b rest ih =>
    intro buf i
    simp [store, ih]

theorem receive_message_error (fuel : Nat) (eng : Engine) (s : State)
    (h : (eng.receive (s.log.countP Call.isReceive)).retcode < 0) :
    receive_message fuel eng s =
      Outcome.ok
        { s with
          rx_buffer := rx_after_receive eng s
          log := s.log ++ [Call.receive 7, Call.printf Msg.receive_error
            [(eng.receive (s.log.countP Call.isReceive)).retcode]] } := by
  unfold receive_message
  simp only [lorawan_receive]
  simp [h, State.emit, rx_after_receive]

theorem receive_message_count (fuel : Nat) (eng : Engine) (s : State) (k : Nat)
    (hret : (eng.receive (s.log.countP Call.isReceive)).retcode = (k : Int)) (hk : k ≤ 255)
    (hf : k ≤ fuel) :
    receive_message fuel eng s =
      Outcome.ok
        { s with
          rx_buffer := List.replicate 7 0
          log := s.log ++
            (Call.receive 7 ::
              Call.printf Msg.rx_data
                [((eng.receive (s.log.countP Call.isReceive)).port : Int), (k : Int)] ::
              (render_calls (rx_after_receive eng s) 0 k ++ [Call.printf Msg.rx_newline []])) } := by
  unfold receive_message
  simp only [lorawan_receive]
  rw [hret]
  have hneg : ¬ ((k : Int) < 0) := by omega
  simp only [hneg, if_false]
  rw [render_loop_exact k hk k 0 fuel _ (by omega) hf]
  simp [State.emit, memset, rx_after_receive]

theorem receive_message_diverges (fuel : Nat) (eng : Engine) (s : State)
    (h : 256 ≤ (eng.receive (s.log.countP Call.isReceive)).retcode) :
    receive_message fuel eng s = Outcome.out_of_fuel := by
  unfold receive_message
  simp only [lorawan_receive]
  have hneg : ¬ ((eng.receive (s.log.countP Call.isReceive)).retcode < 0) := by omega
  simp only [hneg, if_false]
  rw [render_loop_diverges _ h fuel 0 _ (by decide)]

theorem render_calls_length (buf : List Nat) (i n : Nat) : (render_calls buf i n).length = n := by
  simp [render_calls]

theorem render_calls_filter_isRender (buf : List Nat) (i n : Nat) :
    (render_calls buf i n).filter Call.isRender = render_calls buf i n := by
  rw [List.filter_eq_self]
  intro c hc
  simp only [render_calls, List.mem_map] at hc
  obtain ⟨j, _, rfl⟩ := hc
  rfl

/-- Within the array every rendered item carries the byte stored at its index. -/
theorem render_calls_within (buf : List Nat) (n : Nat) (h : n ≤ buf.length) :
    ∀ c ∈ render_calls buf 0 n, ∃ j b, j < n ∧ buf[j]? = some b ∧ c = Call.render_rx_byte j (some b) := by
  intro c hc
  simp only [render_calls, List.mem_map, List.mem_range'_1] at hc
  obtain ⟨j, ⟨_, hj⟩, rfl⟩ := hc
  have hj2 : j < buf.length := by omega
  exact ⟨j, buf[j], by omega, List.getElem?_eq_getElem hj2, by rw [List.getElem?_eq_getElem hj2]⟩

theorem rx_after_receive_emit_printf (eng : Engine) (s : State) (m : Msg) (args : List Int) :
    rx_after_receive eng (s.emit (Call.printf m args)) = rx_after_receive eng s := by
  simp [rx_after_receive, State.emit, Call.isReceive]

theorem lora_event_handler_rx_done_count (fuel : Nat) (cfg : Config) (eng : Engine)
    (s : State) (k : Nat)
    (hret : (eng.receive (s.log.countP Call.isReceive)).retcode = (k : Int)) (hk : k ≤ 255)
    (hf : k ≤ fuel) :
    lora_event_handler fuel cfg eng RX_DONE s =
      Outcome.ok
        { s with
          rx_buffer := List.replicate 7 0
          log := s.log ++
            (Call.printf Msg.received_message [] ::
              Call.receive 7 ::
              Call.printf Msg.rx_data
                [((eng.receive (s.log.countP Call.isReceive)).port : Int), (k : Int)] ::
              (render_calls (rx_after_receive eng s) 0 k ++ [Call.printf Msg.rx_newline []])) } := by
  have hcount : (s.emit (Call.printf Msg.received_message [])).log.countP Call.isReceive =
      s.log.countP Call.isReceive := by
    simp [State.emit, Call.isReceive]
  rw [lora_event_handler_rx_done,
    receive_message_count fuel eng _ k (by rw [hcount]; exact hret) hk hf,
    rx_after_receive_emit_printf, hcount]
  simp [State.emit]

theorem lora_event_handler_rx_done_error (fuel : Nat) (cfg : Config) (eng : Engine)
    (s : State) (h : (eng.receive (s.log.countP Call.isReceive)).retcode < 0) :
    lora_event_handler fuel cfg eng RX_DONE s =
      Outcome.ok
        { s with
          rx_buffer := rx_after_receive eng s
          log := s.log ++
            [Call.printf Msg.received_message [], Call.receive 7,
              Call.printf Msg.receive_error
                [(eng.receive (s.log.countP Call.isReceive)).retcode]] } := by
  have hcount : (s.emit (Call.printf Msg.received_message [])).log.countP Call.isReceive =
      s.log.countP Call.isReceive := by
    simp [State.emit, Call.isReceive]
  rw [lora_event_handler_rx_done, receive_message_error fuel eng _ (by rw [hcount]; exact h),
    rx_after_receive_emit_printf, hcount]
  simp [State.emit]

theorem downlink_calls_filter_isRender (port : Int) (k : Nat) (buf : List Nat) :
    (Call.printf Msg.received_message [] :: Call.receive 7 ::
        Call.printf Msg.rx_data [port, (k : Int)] ::
        (render_calls buf 0 k ++ [Call.printf Msg.rx_newline []])).filter Call.isRender =
      render_calls buf 0 k := by
  simp [-List.filter_eq_nil_iff, List.filter_cons, List.filter_append,
    render_calls_filter_isRender, Call.isRender]

/-- C11: on RX_DONE, with the 7-byte receive buffer and fuel for seven iterations,
when receive returns a count k with 0 <= k <= 7 the handler returns having rendered
exactly k items, the bytes at indices 0..k-1 of rx_buffer as the receive call left
it, in index order, every one read inside the array, and rx_buffer is seven zero
bytes afterwards; when receive returns a negative code the handler returns having
rendered nothing and rx_buffer is as the receive call left it (unchanged when the
stack stored nothing). -/
theorem rx_done_renders_received_bytes (fuel : Nat) (cfg : Config) (eng : Engine) (s : State)
    (hlen : s.rx_buffer.length = 7) (hf : 7 ≤ fuel) :
    (∀ k : Nat, k ≤ 7 → (eng.receive (s.log.countP Call.isReceive)).retcode = (k : Int) →
      ∃ t, lora_event_handler fuel cfg eng RX_DONE s = Outcome.ok t ∧
        (t.calls_since s).filter Call.isRender = render_calls (rx_after_receive eng s) 0 k ∧
        ((t.calls_since s).filter Call.isRender).length = k ∧
        (∀ c ∈ (t.calls_since s).filter Call.isRender,
          ∃ j b, j < k ∧ (rx_after_receive eng s)[j]? = some b ∧
            c = Call.render_rx_byte j (some b)) ∧
        t.rx_buffer = [0, 0, 0, 0, 0, 0, 0]) ∧
      ((eng.receive (s.log.countP Call.isReceive)).retcode < 0 →
        ∃ t, lora_event_handler fuel cfg eng RX_DONE s = Outcome.ok t ∧
          (t.calls_since s).filter Call.isRender = [] ∧
          t.rx_buffer = rx_after_receive eng s ∧
          ((eng.receive (s.log.countP Call.isReceive)).data = [] →
            t.rx_buffer = s.rx_buffer)) := by
  constructor
  · intro k hk hret
    refine ⟨_, lora_event_handler_rx_done_count fuel cfg eng s k hret (by omega) (by omega),
      ?_, ?_, ?_, rfl⟩
    · rw [calls_since_append _ s _ rfl, downlink_calls_filter_isRender]
    · rw [calls_since_append _ s _ rfl, downlink_calls_filter_isRender, render_calls_length]
    · rw [calls_since_append _ s _ rfl, downlink_calls_filter_isRender]
      exact render_calls_within _ k (by simp [rx_after_receive, store_length, hlen]; omega)
  · intro hneg
    refine ⟨_, lora_event_handler_rx_done_error fuel cfg eng s hneg, ?_, rfl, ?_⟩
    · rw [calls_since_append _ s _ rfl]
      simp [Call.isRender]
    · intro hd
      simp [rx_after_receive, hd, store]

/-- C11, witness: from the start state, a receive that stores 1, 2, 3 and returns 3:
the three bytes are rendered in order and the buffer is cleared. -/
theorem rx_done_renders_received_bytes_witness :
    State.init.rx_buffer.length = 7 ∧ (7 ≤ 7) ∧
      ∃ t, lora_event_handler 7 config_duty_cycle (engine_downlink [1, 2, 3] 3) RX_DONE
            State.init = Outcome.ok t ∧
        (t.calls_since State.init).filter Call.isRender =
          [Call.render_rx_byte 0 (some 1), Call.render_rx_byte 1 (some 2),
            Call.render_rx_byte 2 (some 3)] ∧
        t.rx_buffer = [0, 0, 0, 0, 0, 0, 0] := by
  refine ⟨rfl, le_refl 7, ?_⟩
  obtain ⟨t, h1, h2, _, _, h5⟩ :=
    (rx_done_renders_received_bytes 7 config_duty_cycle (engine_downlink [1, 2, 3] 3)
      State.init rfl (le_refl 7)).1 3 (by decide) rfl
  exact ⟨t, h1, h2.trans (by decide), h5⟩

/-- C19: the render loop of receive_message, with its 8-bit counter, on a receive
result k.  For 0 <= k <= 255 the loop started at counter 0 performs exactly k
iterations and exits: it returns when there is fuel for k iterations, having
rendered k items (indices 0..k-1), and does not reach its exit with fuel for fewer.
For k >= 256 (in particular 256 <= k <= 32767) the counter wraps modulo 256 before
reaching k: for every amount of fuel the loop has not exited, and receive_message
does not return. -/
theorem render_loop_termination_bound (k : Nat) (fuel : Nat) (eng : Engine) (s : State) :
    (k ≤ 255 →
      (k ≤ fuel →
        render_loop (k : Int) fuel 0 s =
          Outcome.ok { s with log := s.log ++ render_calls s.rx_buffer 0 k }) ∧
      (render_calls s.rx_buffer 0 k).length = k ∧
      (fuel < k → render_loop (k : Int) fuel 0 s = Outcome.out_of_fuel)) ∧
      (256 ≤ k →
        render_loop (k : Int) fuel 0 s = Outcome.out_of_fuel ∧
        ((eng.receive (s.log.countP Call.isReceive)).retcode = (k : Int) →
          receive_message fuel eng s = Outcome.out_of_fuel)) := by
  constructor
  · intro hk
    exact ⟨fun hf => render_loop_exact k hk k 0 fuel s (by omega) hf,
      render_calls_length _ _ _,
      fun hf => render_loop_short k hk fuel k 0 s (by omega) hf⟩
  · intro hk
    refine ⟨render_loop_diverges (k : Int) (by omega) fuel 0 s (by decide), fun hret => ?_⟩
    exact receive_message_diverges fuel eng s (by rw [hret]; omega)

/-- C19, witness: the count 3 takes three iterations; the count 256 is never reached,
here with fuel for a thousand iterations. -/
theorem render_loop_termination_bound_witness :
    (render_loop 3 3 0 State.init =
        Outcome.ok { State.init with
          log := State.init.log ++ render_calls State.init.rx_buffer 0 3 } ∧
      render_loop 3 2 0 State.init = Outcome.out_of_fuel) ∧
      render_loop 256 1000 0 State.init = Outcome.out_of_fuel ∧
      receive_message 1000 (engine_downlink [] 256) State.init = Outcome.out_of_fuel :=
  ⟨⟨((render_loop_termination_bound 3 3 (engine_downlink [] 3) State.init).1
        (by decide)).1 (le_refl 3),
      ((render_loop_termination_bound 3 2 (engine_downlink [] 3) State.init).1
        (by decide)).2.2 (by decide)⟩,
    ((render_loop_termination_bound 256 1000 (engine_downlink [] 256) State.init).2
      (by decide)).1,
    ((render_loop_termination_bound 256 1000 (engine_downlink [] 256) State.init).2
      (by decide)).2 rfl⟩

/-! ### Startup -/

/-- Closed form of `main`: the startup calls, then the loop or the exit status -1. -/
theorem main_eq (fuel : Nat) (cfg : Config) (eng : Engine) (inputs : List Input) (s : State) :
    main fuel cfg eng inputs s =
      if startup_ok eng = true then
        match dispatch_forever fuel cfg eng inputs { s with log := s.log ++ startup_calls eng } with
        | Outcome.ok t => Outcome.ok ((0 : Int), t)
        | Outcome.abort u => Outcome.abort u
        | Outcome.out_of_fuel => Outcome.out_of_fuel
      else Outcome.ok ((-1 : Int), { s with log := s.log ++ startup_calls eng }) := by
  unfold main
  by_cases h1 : eng.lorawan_init = LORAWAN_STATUS_OK
  · by_cases h2 : eng.set_confirmed_msg_retries = LORAWAN_STATUS_OK
    · by_cases h3 : eng.disable_adaptive_datarate = LORAWAN_STATUS_OK
      · by_cases h4 : eng.connect = LORAWAN_STATUS_OK ∨
            eng.connect = LORAWAN_STATUS_CONNECT_IN_PROGRESS
        · have hok : startup_ok eng = true := by
            rcases h4 with h4 | h4 <;> simp [startup_ok, h1, h2, h3, h4]
          simp [hok, h1, h2, h3, h4, startup_calls, State.emit]
        · have hok : startup_ok eng = false := by
            have h5 : ¬ eng.connect = LORAWAN_STATUS_OK := fun h => h4 (Or.inl h)
            have h6 : ¬ eng.connect = LORAWAN_STATUS_CONNECT_IN_PROGRESS :=
              fun h => h4 (Or.inr h)
            simp [startup_ok, h5, h6]
          simp [hok, h1, h2, h3, h4, startup_calls, State.emit]
      · have hok : startup_ok eng = false := by simp [startup_ok, h3]
        simp [hok, h1, h2, h3, startup_calls, State.emit]
    · have hok : startup_ok eng = false := by simp [startup_ok, h2]
      simp [hok, h1, h2, startup_calls, State.emit]
  · have hok : startup_ok eng = false := by simp [startup_ok, h1]
    simp [hok, h1, startup_calls, State.emit]

theorem startup_calls_filter_isEngine (eng : Engine) :
    (startup_calls eng).filter Call.isEngine = startup_engine_calls eng := by
  unfold startup_calls startup_engine_calls
  split_ifs <;> simp [Call.isEngine, CONFIRMED_MSG_RETRY_COUNTER]

theorem dispatch_forever_mem_startup_calls (eng : Engine) :
    Call.dispatch_forever ∈ startup_calls eng ↔ startup_ok eng = true := by
  unfold startup_calls
  by_cases h1 : eng.lorawan_init = LORAWAN_STATUS_OK
  · by_cases h2 : eng.set_confirmed_msg_retries = LORAWAN_STATUS_OK
    · by_cases h3 : eng.disable_adaptive_datarate = LORAWAN_STATUS_OK
      · by_cases h4 : eng.connect = LORAWAN_STATUS_OK ∨
            eng.connect = LORAWAN_STATUS_CONNECT_IN_PROGRESS
        · have hok : startup_ok eng = true := by
            rcases h4 with h4 | h4 <;> simp [startup_ok, h1, h2, h3, h4]
          simp [hok, h1, h2, h3, h4]
        · have hok : startup_ok eng = false := by
            have h5 : ¬ eng.connect = LORAWAN_STATUS_OK := fun h => h4 (Or.inl h)
            have h6 : ¬ eng.connect = LORAWAN_STATUS_CONNECT_IN_PROGRESS :=
              fun h => h4 (Or.inr h)
            simp [startup_ok, h5, h6]
          simp [hok, h1, h2, h3, h4]
      · have hok : startup_ok eng = false := by simp [startup_ok, h3]
        simp [hok, h1, h2, h3]
    · have hok : startup_ok eng = false := by simp [startup_ok, h2]
      simp [hok, h1, h2]
  · have hok : startup_ok eng = false := by simp [startup_ok, h1]
    simp [hok, h1]

theorem startup_ok_iff (eng : Engine) :
    startup_ok eng = true ↔
      eng.lorawan_init = LORAWAN_STATUS_OK ∧
        eng.set_confirmed_msg_retries = LORAWAN_STATUS_OK ∧
        eng.disable_adaptive_datarate = LORAWAN_STATUS_OK ∧
        (eng.connect = LORAWAN_STATUS_OK ∨
          eng.connect = LORAWAN_STATUS_CONNECT_IN_PROGRESS) := by
  simp [startup_ok, and_assoc]

/-- C13: for every combination of statuses returned by initialize,
set_confirmed_msg_retries, disable_adaptive_datarate and connect, main enters the
dispatch loop (calls dispatch_forever, and then runs it on the inputs, returning 0
when it stops) if and only if the first three return OK and connect returns OK or
CONNECT_IN_PROGRESS; otherwise it returns -1 without entering the loop.  The stack
operations it has called are initialize, add_app_callbacks, set_confirmed_msg_retries,
disable_adaptive_datarate, connect, in this order, up to and including the first
step that fails and none after it. -/
theorem main_enters_loop_iff_startup_ok (fuel : Nat) (cfg : Config) (eng : Engine)
    (inputs : List Input) (s : State) :
    main fuel cfg eng inputs s =
        (if startup_ok eng = true then
          match dispatch_forever fuel cfg eng inputs
              { s with log := s.log ++ startup_calls eng } with
          | Outcome.ok t => Outcome.ok ((0 : Int), t)
          | Outcome.abort u => Outcome.abort u
          | Outcome.out_of_fuel => Outcome.out_of_fuel
        else Outcome.ok ((-1 : Int), { s with log := s.log ++ startup_calls eng })) ∧
      (∃ t, main fuel cfg eng [] s = Outcome.ok ((if startup_ok eng = true then 0 else -1), t) ∧
        t.calls_since s = startup_calls eng) ∧
      (Call.dispatch_forever ∈ startup_calls eng ↔ startup_ok eng = true) ∧
      (startup_ok eng = true ↔
        eng.lorawan_init = LORAWAN_STATUS_OK ∧
          eng.set_confirmed_msg_retries = LORAWAN_STATUS_OK ∧
          eng.disable_adaptive_datarate = LORAWAN_STATUS_OK ∧
          (eng.connect = LORAWAN_STATUS_OK ∨
            eng.connect = LORAWAN_STATUS_CONNECT_IN_PROGRESS)) ∧
      (startup_calls eng).filter Call.isEngine = startup_engine_calls eng ∧
      (startup_ok eng = true →
        (startup_calls eng).filter Call.isEngine =
          [Call.lorawan_init, Call.add_app_callbacks, Call.set_confirmed_msg_retries 3,
            Call.disable_adaptive_datarate, Call.connect]) := by
  refine ⟨main_eq fuel cfg eng inputs s, ?_, dispatch_forever_mem_startup_calls eng,
    startup_ok_iff eng, startup_calls_filter_isEngine eng, ?_⟩
  · rw [main_eq]
    cases hok : startup_ok eng
    · exact ⟨{ s with log := s.log ++ startup_calls eng }, by simp,
        calls_since_append _ s _ rfl⟩
    · exact ⟨{ s with log := s.log ++ startup_calls eng }, by simp [dispatch_forever],
        calls_since_append _ s _ rfl⟩
  · intro hok
    obtain ⟨h1, h2, h3, _⟩ := (startup_ok_iff eng).1 hok
    rw [startup_calls_filter_isEngine]
    simp [startup_engine_calls, h1, h2, h3]

/-- C13, witness: with connect in progress the loop is entered and the five operations
were called in order; with a failing retry-count step main returns -1 after three
operations. -/
theorem main_enters_loop_iff_startup_ok_witness :
    startup_ok (engine_startup 0 0 0 LORAWAN_STATUS_CONNECT_IN_PROGRESS) = true ∧
      (startup_calls (engine_startup 0 0 0 LORAWAN_STATUS_CONNECT_IN_PROGRESS)).filter
          Call.isEngine =
        [Call.lorawan_init, Call.add_app_callbacks, Call.set_confirmed_msg_retries 3,
          Call.disable_adaptive_datarate, Call.connect] ∧
      main 0 config_duty_cycle (engine_startup 0 (-1) 0 0) [Input.event CONNECTED] State.init =
        Outcome.ok ((-1 : Int),
          { State.init with
            log := State.init.log ++ startup_calls (engine_startup 0 (-1) 0 0) }) :=
  ⟨by decide,
    (main_enters_loop_iff_startup_ok 0 config_duty_cycle
      (engine_startup 0 0 0 LORAWAN_STATUS_CONNECT_IN_PROGRESS) [] State.init).2.2.2.2.2
      (by decide),
    (main_enters_loop_iff_startup_ok 0 config_duty_cycle (engine_startup 0 (-1) 0 0)
      [Input.event CONNECTED] State.init).1⟩

/-- C14, counterexample: from the start state, on CONNECTED, the handler starts the
scheduler before it applies the data rate: in duty-cycle mode the send comes before
set_datarate, in fixed-interval mode arming the periodic timer comes before it. -/
theorem connected_schedules_before_datarate :
    (∃ t, lora_event_handler 0 config_duty_cycle engine_accepting CONNECTED State.init =
        Outcome.ok t ∧
      (t.calls_since State.init).filter Call.isScheduleOrDatarate =
        [Call.send 15 [0x30, 0, 0, 0, 0, 0, 0] 1 1, Call.set_datarate 0]) ∧
      (∃ t, lora_event_handler 0 config_fixed_interval engine_accepting CONNECTED State.init =
          Outcome.ok t ∧
        (t.calls_since State.init).filter Call.isScheduleOrDatarate =
          [Call.call_every 30000 Callback.send_message, Call.set_datarate 0]) := by
  refine ⟨⟨_, rfl, ?_⟩, ⟨_, rfl, ?_⟩⟩ <;> decide

theorem send_message_calls_filter_isScheduleOrDatarate (cfg : Config) (buf : List Nat)
    (r : Int) :
    (send_message_calls cfg buf r).filter Call.isScheduleOrDatarate =
      [Call.send cfg.MBED_CONF_LORA_APP_PORT buf 1 MSG_UNCONFIRMED_FLAG] := by
  unfold send_message_calls
  split_ifs <;> simp [Call.isScheduleOrDatarate]

/-- C14, amended: on a CONNECTED event the handler starts the scheduler first and
applies the fixed data rate afterwards.  In duty-cycle mode its only send, the one
made by send_message with the one-byte payload, precedes its only call of
set_datarate(DR_0); in fixed-interval mode arming the periodic timer
call_every(30000, send_message) precedes set_datarate(DR_0). -/
theorem connected_datarate_after_scheduler (fuel : Nat) (cfg : Config) (eng : Engine)
    (s : State) :
    ∃ t, lora_event_handler fuel cfg eng CONNECTED s = Outcome.ok t ∧
      (t.calls_since s).filter Call.isScheduleOrDatarate =
        if cfg.MBED_CONF_LORA_DUTY_CYCLE_ON = true then
          [Call.send cfg.MBED_CONF_LORA_APP_PORT ((s.tx_buffer.set 0 0x30).set 1 0) 1
              MSG_UNCONFIRMED_FLAG,
            Call.set_datarate DR_0]
        else [Call.call_every 30000 Callback.send_message, Call.set_datarate DR_0] := by
  refine ⟨_, lora_event_handler_connected fuel cfg eng s, ?_⟩
  cases hd : cfg.MBED_CONF_LORA_DUTY_CYCLE_ON <;>
    simp [-List.filter_eq_nil_iff, State.calls_since, State.emit, send_message_log,
      ev_queue_call_every, send_message_calls_filter_isScheduleOrDatarate,
      Call.isScheduleOrDatarate, TX_TIMER, store]

/-- The source function `send_message` meets the scheduler contract. -/
theorem send_message_meets_spec (cfg : Config) (eng : Engine) (s : State) :
    ((send_message cfg eng s).tx_buffer, (send_message cfg eng s).ev_queue) =
      schedule_send_spec cfg.MBED_CONF_LORA_DUTY_CYCLE_ON (eng.send (s.log.countP Call.isSend))
        s.tx_buffer s.ev_queue := by
  rw [send_message_tx_buffer, send_message_ev_queue]
  unfold schedule_send_spec
  by_cases h0 : 0 ≤ eng.send (s.log.countP Call.isSend)
  · have h2 : ¬ eng.send (s.log.countP Call.isSend) = LORAWAN_STATUS_WOULD_BLOCK := by
      simp only [LORAWAN_STATUS_WOULD_BLOCK]; omega
    simp [h0, h2]
  · by_cases h2 : eng.send (s.log.countP Call.isSend) = LORAWAN_STATUS_WOULD_BLOCK ∧
        cfg.MBED_CONF_LORA_DUTY_CYCLE_ON = true
    · have h3 : ¬ (0 : Int) ≤ LORAWAN_STATUS_WOULD_BLOCK := by decide
      simp [h2, h3, store]
    · simp [h0, h2, store]

/-- In duty-cycle mode the handler, on a triggering event, ends in the state of one
`send_message` run after a report. -/
theorem lora_event_handler_trigger_duty (fuel : Nat) (port : Nat) (eng : Engine) (e : Nat)
    (s : State)
    (he : e = TX_DONE ∨ e = TX_CRYPTO_ERROR ∨ e = TX_SCHEDULING_ERROR ∨ e = UPLINK_REQUIRED) :
    ∃ pre : List Call, (∀ c ∈ pre, c.isReport = true) ∧
      lora_event_handler fuel (Config.mk true port) eng e s =
        Outcome.ok (send_message (Config.mk true port) eng { s with log := s.log ++ pre }) := by
  rcases lora_event_handler_shape fuel (Config.mk true port) eng e s with
    h | h | h | ⟨_, _, _, pre, hpre, heq⟩
  · rcases he with rfl | rfl | rfl | rfl <;> exact absurd h (by decide)
  · rcases he with rfl | rfl | rfl | rfl <;> exact absurd h (by decide)
  · rcases he with rfl | rfl | rfl | rfl <;> exact absurd h (by decide)
  · have ht : triggers_send e = true := by
      rcases he with rfl | rfl | rfl | rfl <;> decide
    refine ⟨pre, hpre, ?_⟩
    rw [heq]
    simp [ht]

/-- C15: in duty-cycle mode, on each TX_CRYPTO_ERROR, TX_SCHEDULING_ERROR and
UPLINK_REQUIRED event the handler returns having called the stack's send exactly
once (one invocation of send_message), and its effect on tx_buffer and on the timers
of the queue is that of the send triggered by TX_DONE whenever the two sends get the
same result, whatever else the stack answers: both are the effect the scheduler
contract gives for that result. -/
theorem retry_events_send_like_tx_done (fuel : Nat) (port : Nat) (eng eng2 : Engine) (e : Nat)
    (s : State)
    (he : e = TX_CRYPTO_ERROR ∨ e = TX_SCHEDULING_ERROR ∨ e = UPLINK_REQUIRED)
    (hsame : eng.send (s.log.countP Call.isSend) = eng2.send (s.log.countP Call.isSend)) :
    ∃ t u, lora_event_handler fuel (Config.mk true port) eng e s = Outcome.ok t ∧
      lora_event_handler fuel (Config.mk true port) eng2 TX_DONE s = Outcome.ok u ∧
      (t.calls_since s).countP Call.isSend = 1 ∧
      t.tx_buffer = u.tx_buffer ∧ t.ev_queue = u.ev_queue ∧
      (t.tx_buffer, t.ev_queue) =
        schedule_send_spec true (eng.send (s.log.countP Call.isSend)) s.tx_buffer s.ev_queue := by
  obtain ⟨pre, hpre, ht⟩ := lora_event_handler_trigger_duty fuel port eng e s (Or.inr he)
  obtain ⟨pre2, hpre2, hu⟩ := lora_event_handler_trigger_duty fuel port eng2 TX_DONE s
    (Or.inl rfl)
  have hc : (s.log ++ pre).countP Call.isSend = s.log.countP Call.isSend := by
    rw [List.countP_append,
      countP_eq_zero_of_class Call.isSend Call.isReport report_not_send pre hpre]
    rfl
  have hc2 : (s.log ++ pre2).countP Call.isSend = s.log.countP Call.isSend := by
    rw [List.countP_append,
      countP_eq_zero_of_class Call.isSend Call.isReport report_not_send pre2 hpre2]
    rfl
  have h1 := send_message_meets_spec (Config.mk true port) eng { s with log := s.log ++ pre }
  have h2 := send_message_meets_spec (Config.mk true port) eng2 { s with log := s.log ++ pre2 }
  simp only [hc] at h1
  simp only [hc2, ← hsame] at h2
  refine ⟨_, _, ht, hu, ?_, ?_, ?_, h1⟩
  · rw [calls_since_append _ s _
      ((send_message_log _ eng _).trans (List.append_assoc _ _ _)), List.countP_append,
      countP_eq_zero_of_class Call.isSend Call.isReport report_not_send pre hpre,
      send_message_calls_countP_isSend]
  · exact (congrArg Prod.fst h1).trans (congrArg Prod.fst h2).symm
  · exact (congrArg Prod.snd h1).trans (congrArg Prod.snd h2).symm

/-- C15, witness: UPLINK_REQUIRED against TX_DONE from the start state, both sends
answered "would block". -/
theorem retry_events_send_like_tx_done_witness :
    ∃ t u, lora_event_handler 0 (Config.mk true 15) engine_would_block UPLINK_REQUIRED
          State.init = Outcome.ok t ∧
      lora_event_handler 0 (Config.mk true 15) engine_would_block TX_DONE State.init =
        Outcome.ok u ∧
      (t.calls_since State.init).countP Call.isSend = 1 ∧
      t.tx_buffer = u.tx_buffer ∧ t.ev_queue = u.ev_queue ∧
      (t.tx_buffer, t.ev_queue) =
        schedule_send_spec true
          (engine_would_block.send (State.init.log.countP Call.isSend))
          State.init.tx_buffer State.init.ev_queue :=
  retry_events_send_like_tx_done 0 15 engine_would_block engine_would_block UPLINK_REQUIRED
    State.init (Or.inr (Or.inr rfl)) rfl

/-- C16: on each of TX_TIMEOUT, TX_ERROR, RX_TIMEOUT, RX_ERROR and JOIN_FAILURE, in
both scheduling modes, the handler returns having made a single printf and nothing
else: no call to the stack (no send, receive, connect, set_datarate or other
operation), no timer call, no break_dispatch; tx_buffer, rx_buffer and the queue are
unchanged. -/
theorem failure_events_only_report (fuel : Nat) (cfg : Config) (eng : Engine) (e : Nat)
    (s : State)
    (he : e = TX_TIMEOUT ∨ e = TX_ERROR ∨ e = RX_TIMEOUT ∨ e = RX_ERROR ∨ e = JOIN_FAILURE) :
    ∃ t, lora_event_handler fuel cfg eng e s = Outcome.ok t ∧
      (∃ m args, t.calls_since s = [Call.printf m args]) ∧
      (t.calls_since s).filter Call.isEngine = [] ∧
      (t.calls_since s).filter Call.isTimer = [] ∧
      (t.calls_since s).countP Call.isBreakDispatch = 0 ∧
      t.tx_buffer = s.tx_buffer ∧ t.rx_buffer = s.rx_buffer ∧ t.ev_queue = s.ev_queue := by
  have key : ∀ (m : Msg) (args : List Int),
      lora_event_handler fuel cfg eng e s = Outcome.ok (s.emit (Call.printf m args)) →
      ∃ t, lora_event_handler fuel cfg eng e s = Outcome.ok t ∧
        (∃ m args, t.calls_since s = [Call.printf m args]) ∧
        (t.calls_since s).filter Call.isEngine = [] ∧
        (t.calls_since s).filter Call.isTimer = [] ∧
        (t.calls_since s).countP Call.isBreakDispatch = 0 ∧
        t.tx_buffer = s.tx_buffer ∧ t.rx_buffer = s.rx_buffer ∧ t.ev_queue = s.ev_queue := by
    intro m args h
    have hc : (s.emit (Call.printf m args)).calls_since s = [Call.printf m args] :=
      calls_since_append _ s _ rfl
    refine ⟨_, h, ⟨m, args, hc⟩, ?_, ?_, ?_, rfl, rfl, rfl⟩
    · rw [hc]; rfl
    · rw [hc]; rfl
    · rw [hc]; rfl
  rcases he with h | h | h | h | h
  · exact key _ _ (lora_event_handler_tx_failed fuel cfg eng e s (Or.inl h))
  · exact key _ _ (lora_event_handler_tx_failed fuel cfg eng e s (Or.inr h))
  · exact key _ _ (lora_event_handler_rx_failed fuel cfg eng e s (Or.inl h))
  · exact key _ _ (lora_event_handler_rx_failed fuel cfg eng e s (Or.inr h))
  · subst h
    exact key _ _ (lora_event_handler_join_failure fuel cfg eng s)

/-- C16, witness: JOIN_FAILURE from the start state. -/
theorem failure_events_only_report_witness :
    ∃ t, lora_event_handler 0 config_duty_cycle engine_accepting JOIN_FAILURE State.init =
        Outcome.ok t ∧
      (∃ m args, t.calls_since State.init = [Call.printf m args]) ∧
      (t.calls_since State.init).filter Call.isEngine = [] ∧
      (t.calls_since State.init).filter Call.isTimer = [] ∧
      (t.calls_since State.init).countP Call.isBreakDispatch = 0 ∧
      t.tx_buffer = State.init.tx_buffer ∧ t.rx_buffer = State.init.rx_buffer ∧
      t.ev_queue = State.init.ev_queue :=
  failure_events_only_report 0 config_duty_cycle engine_accepting JOIN_FAILURE State.init
    (Or.inr (Or.inr (Or.inr (Or.inr rfl))))

/-! ### Repeated sends and the transmit buffer -/

theorem store_payload_idempotent (buf : List Nat) :
    store (store buf 0 [0x30, 0]) 0 [0x30, 0] = store buf 0 [0x30, 0] := by
  match buf with
  | [] => rfl
  | [_] => rfl
  | _ :: _ :: _ => rfl

theorem store_payload_of_reachable (buf : List Nat)
    (h : buf = [0, 0, 0, 0, 0, 0, 0] ∨ buf = tx_payload) :
    store buf 0 [0x30, 0] = tx_payload := by
  rcases h with rfl | rfl <;> rfl

theorem send_message_countP_isSend (cfg : Config) (eng : Engine) (s : State) :
    (send_message cfg eng s).log.countP Call.isSend = s.log.countP Call.isSend + 1 := by
  rw [send_message_log, List.countP_append, send_message_calls_countP_isSend]

theorem send_message_repeat_countP_isSend (cfg : Config) (eng : Engine) (s : State) :
    ∀ n, (send_message_repeat cfg eng n s).log.countP Call.isSend =
      s.log.countP Call.isSend + n := by
  intro n
  induction n with
  | zero => rfl
  | succ m ih =>
    simp only [send_message_repeat]
    rw [send_message_countP_isSend, ih]
    omega

theorem send_message_repeat_reachable (cfg : Config) (eng : Engine) (s : State)
    (h : s.tx_buffer = [0, 0, 0, 0, 0, 0, 0] ∨ s.tx_buffer = tx_payload) :
    ∀ n, (send_message_repeat cfg eng n s).tx_buffer = [0, 0, 0, 0, 0, 0, 0] ∨
      (send_message_repeat cfg eng n s).tx_buffer = tx_payload := by
  intro n
  induction n with
  | zero => exact h
  | succ m ih =>
    simp only [send_message_repeat]
    rw [send_message_tx_buffer]
    split_ifs
    · exact Or.inl rfl
    · exact Or.inr (store_payload_of_reachable _ ih)

/-- C17, counterexample: from the buffer content 9,9,9,9,9,9,9 two sequences of
invocations that both end in a failed send leave different contents: one failing
send leaves 0x30,0,9,9,9,9,9, while a successful send followed by a failing one
leaves 0x30,0,0,0,0,0,0.  The content does not depend on the last result alone. -/
theorem tx_buffer_depends_on_earlier_sends :
    ¬ (0 ≤ engine_would_block.send (state_tx_nines.log.countP Call.isSend + 0)) ∧
      ¬ (0 ≤ engine_accept_then_block.send (state_tx_nines.log.countP Call.isSend + 1)) ∧
      (send_message_repeat config_duty_cycle engine_would_block (0 + 1)
          state_tx_nines).tx_buffer = [0x30, 0, 9, 9, 9, 9, 9] ∧
      (send_message_repeat config_duty_cycle engine_accept_then_block (1 + 1)
          state_tx_nines).tx_buffer = [0x30, 0, 0, 0, 0, 0, 0] ∧
      (send_message_repeat config_duty_cycle engine_would_block (0 + 1)
          state_tx_nines).tx_buffer ≠
        (send_message_repeat config_duty_cycle engine_accept_then_block (1 + 1)
          state_tx_nines).tx_buffer := by
  refine ⟨by decide, by decide, ?_, ?_, ?_⟩ <;> decide

/-- C17, amended: send_message is idempotent on tx_buffer: for every buffer content
and every send result r, two consecutive invocations that both get r leave tx_buffer
as a single invocation with r does.  After any non-empty sequence of invocations,
from every starting content, tx_buffer is all zero when the last send succeeded, and
when the last send failed it is the content before that invocation with 0x30 written
at index 0 and NUL at index 1.  Hence, starting from a content the program can hold
(all zero, or the payload), the content depends only on whether the last send
succeeded: all zero, or the payload. -/
theorem send_message_buffer_idempotent (cfg : Config) (eng : Engine) (s : State) (r : Int) :
    (eng.send (s.log.countP Call.isSend) = r → eng.send (s.log.countP Call.isSend + 1) = r →
      (send_message cfg eng (send_message cfg eng s)).tx_buffer =
        (send_message cfg eng s).tx_buffer) ∧
      (∀ n, 0 ≤ eng.send (s.log.countP Call.isSend + n) →
        (send_message_repeat cfg eng (n + 1) s).tx_buffer = [0, 0, 0, 0, 0, 0, 0]) ∧
      (∀ n, ¬ (0 ≤ eng.send (s.log.countP Call.isSend + n)) →
        (send_message_repeat cfg eng (n + 1) s).tx_buffer =
          ((send_message_repeat cfg eng n s).tx_buffer.set 0 0x30).set 1 0) ∧
      (s.tx_buffer = [0, 0, 0, 0, 0, 0, 0] ∨ s.tx_buffer = tx_payload →
        ∀ n, (send_message_repeat cfg eng (n + 1) s).tx_buffer =
          if 0 ≤ eng.send (s.log.countP Call.isSend + n) then [0, 0, 0, 0, 0, 0, 0]
          else tx_payload) := by
  refine ⟨?_, ?_, ?_, ?_⟩
  · intro h1 h2
    rw [send_message_tx_buffer cfg eng (send_message cfg eng s), send_message_countP_isSend,
      send_message_tx_buffer, h1, h2]
    split_ifs
    · rfl
    · exact store_payload_idempotent _
  · intro n hn
    simp only [send_message_repeat]
    rw [send_message_tx_buffer, send_message_repeat_countP_isSend]
    simp [hn]
  · intro n hn
    simp only [send_message_repeat]
    rw [send_message_tx_buffer, send_message_repeat_countP_isSend]
    simp [hn, store]
  · intro hs n
    simp only [send_message_repeat]
    rw [send_message_tx_buffer, send_message_repeat_countP_isSend]
    split_ifs
    · rfl
    · exact store_payload_of_reachable _ (send_message_repeat_reachable cfg eng s hs n)

/-- C17, witness: two failing invocations from the start state leave the payload, as
one does; three invocations ending in a failure leave the payload. -/
theorem send_message_buffer_idempotent_witness :
    (send_message config_duty_cycle engine_would_block
        (send_message config_duty_cycle engine_would_block State.init)).tx_buffer =
        (send_message config_duty_cycle engine_would_block State.init).tx_buffer ∧
      (send_message_repeat config_duty_cycle engine_would_block (2 + 1) State.init).tx_buffer =
        (if 0 ≤ engine_would_block.send (State.init.log.countP Call.isSend + 2) then
          [0, 0, 0, 0, 0, 0, 0]
        else tx_payload) :=
  ⟨(send_message_buffer_idempotent config_duty_cycle engine_would_block State.init
      LORAWAN_STATUS_WOULD_BLOCK).1 rfl rfl,
    (send_message_buffer_idempotent config_duty_cycle engine_would_block State.init
      LORAWAN_STATUS_WOULD_BLOCK).2.2.2 (Or.inl rfl) 2⟩

/-! ### The invariant of the transmit buffer -/

theorem tx_invariant_of_log (cfg : Config) (s t : State) (new : List Call)
    (h : tx_invariant cfg s) (hb : t.tx_buffer = s.tx_buffer) (hl : t.log = s.log ++ new)
    (hn : ∀ c ∈ new, c.isSend = false) : tx_invariant cfg t := by
  refine ⟨by rw [hb]; exact h.1, ?_⟩
  intro c hc hs
  rw [hl, List.mem_append] at hc
  rcases hc with hc | hc
  · exact h.2 c hc hs
  · rw [hn c hc] at hs
    exact absurd hs (by decide)

theorem tx_invariant_emit (cfg : Config) (s : State) (c : Call) (hc : c.isSend = false)
    (h : tx_invariant cfg s) : tx_invariant cfg (s.emit c) :=
  tx_invariant_of_log cfg s _ [c] h rfl rfl (by simpa using hc)

theorem tx_invariant_send_message (cfg : Config) (eng : Engine) (s : State)
    (h : tx_invariant cfg s) : tx_invariant cfg (send_message cfg eng s) := by
  refine ⟨?_, ?_⟩
  · rw [send_message_tx_buffer]
    split_ifs
    · exact Or.inl rfl
    · exact Or.inr (store_payload_of_reachable _ h.1)
  · intro c hc hs
    rw [send_message_log, List.mem_append] at hc
    rcases hc with hc | hc
    · exact h.2 c hc hs
    · rw [store_payload_of_reachable _ h.1] at hc
      unfold send_message_calls at hc
      rw [List.mem_cons] at hc
      rcases hc with rfl | hc
      · rfl
      · split_ifs at hc <;> simp at hc <;> (try rcases hc with rfl | rfl) <;>
          simp_all [Call.isSend]

theorem lora_event_handler_tx_invariant (fuel : Nat) (cfg : Config) (eng : Engine) (e : Nat)
    (s t : State) (h : lora_event_handler fuel cfg eng e s = Outcome.ok t)
    (hi : tx_invariant cfg s) : tx_invariant cfg t := by
  rcases lora_event_handler_shape fuel cfg eng e s with
    he | he | he | ⟨_, _, _, pre, hpre, heq⟩
  · subst he
    rw [lora_event_handler_connected] at h
    simp only [Outcome.ok.injEq] at h
    subst h
    have h1 := tx_invariant_emit cfg s (Call.printf Msg.connection_successful []) rfl hi
    refine tx_invariant_emit cfg _ _ (by rfl) ?_
    refine tx_invariant_emit cfg _ _ (by rfl) ?_
    split_ifs
    · exact tx_invariant_send_message cfg eng _ h1
    · exact tx_invariant_of_log cfg _ _ [Call.call_every TX_TIMER Callback.send_message] h1
        rfl rfl (by simp [Call.isSend])
  · subst he
    rw [lora_event_handler_disconnected] at h
    simp only [Outcome.ok.injEq] at h
    subst h
    refine tx_invariant_emit cfg _ _ (by rfl) ?_
    exact tx_invariant_of_log cfg s _ [Call.break_dispatch] hi rfl rfl (by simp [Call.isSend])
  · subst he
    rw [lora_event_handler_rx_done] at h
    obtain ⟨hb, _, new, hlog, hnew⟩ := receive_message_frame _ _ _ _ h
    exact tx_invariant_of_log cfg _ t new
      (tx_invariant_emit cfg s (Call.printf Msg.received_message []) rfl hi) hb hlog
      (fun c hc => downlink_not_send c (hnew c hc))
  · rw [heq] at h
    simp only [Outcome.ok.injEq] at h
    subst h
    have h1 : tx_invariant cfg { s with log := s.log ++ pre } :=
      tx_invariant_of_log cfg s _ pre hi rfl rfl (fun c hc => report_not_send c (hpre c hc))
    split_ifs
    · exact tx_invariant_send_message cfg eng _ h1
    · exact h1

theorem dispatch_step_tx_invariant (fuel : Nat) (cfg : Config) (eng : Engine) (i : Input)
    (s t : State) (h : dispatch_step fuel cfg eng s i = Outcome.ok t)
    (hi : tx_invariant cfg s) : tx_invariant cfg t := by
  cases i with
  | event e => exact lora_event_handler_tx_invariant fuel cfg eng e s t h hi
  | one_shot =>
    simp only [dispatch_step] at h
    split at h
    · simp only [Outcome.ok.injEq] at h
      subst h
      exact hi
    · rename_i tm rest hq
      simp only [Outcome.ok.injEq] at h
      subst h
      cases hcb : tm.cb
      simp only [run_callback]
      exact tx_invariant_send_message cfg eng _
        (tx_invariant_of_log cfg s _ [] hi rfl (by simp) (by simp))
  | periodic k =>
    simp only [dispatch_step] at h
    split at h
    · simp only [Outcome.ok.injEq] at h
      subst h
      exact hi
    · rename_i tm hq
      simp only [Outcome.ok.injEq] at h
      subst h
      cases hcb : tm.cb
      simp only [run_callback]
      exact tx_invariant_send_message cfg eng _ hi

theorem dispatch_forever_tx_invariant (fuel : Nat) (cfg : Config) (eng : Engine) :
    ∀ (inputs : List Input) (s t : State), dispatch_forever fuel cfg eng inputs s = Outcome.ok t →
      tx_invariant cfg s → tx_invariant cfg t := by
  intro inputs
  induction inputs with
  | nil =>
    intro s t h hi
    simp only [dispatch_forever, Outcome.ok.injEq] at h
    subst h
    exact hi
  | cons i rest ih =>
    intro s t h hi
    simp only [dispatch_forever] at h
    split_ifs at h
    · simp only [Outcome.ok.injEq] at h
      subst h
      exact hi
    · cases hs : dispatch_step fuel cfg eng s i with
      | ok s1 =>
        rw [hs] at h
        exact ih s1 t h (dispatch_step_tx_invariant fuel cfg eng i s s1 hs hi)
      | abort u =>
        rw [hs] at h
        simp at h
      | out_of_fuel =>
        rw [hs] at h
        simp at h

theorem startup_calls_not_send (eng : Engine) : ∀ c ∈ startup_calls eng, c.isSend = false := by
  have h : (startup_calls eng).all (fun c => !c.isSend) = true := by
    unfold startup_calls
    split_ifs <;> rfl
  intro c hc
  have := List.all_eq_true.1 h c hc
  simpa using this

theorem tx_invariant_init (cfg : Config) : tx_invariant cfg State.init :=
  ⟨Or.inl rfl, fun c hc => absurd hc (List.not_mem_nil c)⟩

theorem sprintf_payload (buf : List Nat) (h : buf.length = 7) :
    (sprintf buf [0x30]).1 = 1 ∧ (sprintf buf [0x30]).2.length = 7 ∧
      (sprintf buf [0x30]).2[0]? = some 0x30 ∧ (sprintf buf [0x30]).2[1]? = some 0 ∧
      ∀ i, 2 ≤ i → (sprintf buf [0x30]).2[i]? = buf[i]? := by
  match buf, h with
  | [b0, b1, b2, b3, b4, b5, b6], _ =>
    refine ⟨rfl, rfl, rfl, rfl, ?_⟩
    intro i hi
    obtain ⟨j, rfl⟩ : ∃ j, i = j + 2 := ⟨i - 2, by omega⟩
    rfl

/-- C18: the invariant of the transmit buffer.  From every state in which tx_buffer is
all zero or holds the payload and every send so far passed the payload with length 1
and the unconfirmed flag (the start state is one), any run of the dispatch loop
(events, timer expiries, any stack replies) that returns ends in such a state:
tx_buffer[1..6] are zero, tx_buffer[0] is 0 or 0x30, and every call of send passed
length 1, tx_buffer[0] = 0x30 and the unconfirmed flag.  The same holds for the whole
program run by main from the start state.  The loop never aborts and fails to return
only inside an RX_DONE.  Building the payload returns length 1 and writes only
indices 0 and 1 of the 7-byte array. -/
theorem tx_buffer_invariant (fuel : Nat) (cfg : Config) (eng : Engine) (inputs : List Input)
    (s : State) (h : tx_invariant cfg s) :
    (match dispatch_forever fuel cfg eng inputs s with
      | Outcome.ok t =>
        (t.tx_buffer = [0, 0, 0, 0, 0, 0, 0] ∨ t.tx_buffer = [0x30, 0, 0, 0, 0, 0, 0]) ∧
          ∀ c ∈ t.log, c.isSend = true →
            c = Call.send cfg.MBED_CONF_LORA_APP_PORT [0x30, 0, 0, 0, 0, 0, 0] 1
              MSG_UNCONFIRMED_FLAG
      | Outcome.abort _ => False
      | Outcome.out_of_fuel => Input.event RX_DONE ∈ inputs) ∧
      (match main fuel cfg eng inputs State.init with
        | Outcome.ok r =>
          (r.2.tx_buffer = [0, 0, 0, 0, 0, 0, 0] ∨ r.2.tx_buffer = [0x30, 0, 0, 0, 0, 0, 0]) ∧
            ∀ c ∈ r.2.log, c.isSend = true →
              c = Call.send cfg.MBED_CONF_LORA_APP_PORT [0x30, 0, 0, 0, 0, 0, 0] 1
                MSG_UNCONFIRMED_FLAG
        | Outcome.abort _ => False
        | Outcome.out_of_fuel => Input.event RX_DONE ∈ inputs) ∧
      (255 ≤ fuel → (∀ n, (eng.receive n).retcode ≤ 255) →
        ∃ t, dispatch_forever fuel cfg eng inputs s = Outcome.ok t) ∧
      (∀ buf : List Nat, buf.length = 7 →
        (sprintf buf [0x30]).1 = 1 ∧ (sprintf buf [0x30]).2.length = 7 ∧
          (sprintf buf [0x30]).2[0]? = some 0x30 ∧ (sprintf buf [0x30]).2[1]? = some 0 ∧
          ∀ i, 2 ≤ i → (sprintf buf [0x30]).2[i]? = buf[i]?) := by
  refine ⟨?_, ?_, fun hf hk => dispatch_forever_returns fuel cfg eng hf hk inputs s,
    sprintf_payload⟩
  · cases hr : dispatch_forever fuel cfg eng inputs s with
    | ok t => exact dispatch_forever_tx_invariant fuel cfg eng inputs s t hr h
    | abort u => exact absurd hr ((dispatch_forever_outcome fuel cfg eng inputs s).1 u)
    | out_of_fuel => exact (dispatch_forever_outcome fuel cfg eng inputs s).2 hr
  · have h0 : tx_invariant cfg { State.init with log := State.init.log ++ startup_calls eng } :=
      tx_invariant_of_log cfg State.init _ (startup_calls eng) (tx_invariant_init cfg) rfl rfl
        (startup_calls_not_send eng)
    rw [main_eq]
    cases hok : startup_ok eng
    · exact h0
    · simp only [if_true]
      cases hr : dispatch_forever fuel cfg eng inputs
          { State.init with log := State.init.log ++ startup_calls eng } with
      | ok t => exact dispatch_forever_tx_invariant fuel cfg eng inputs _ t hr h0
      | abort u => exact absurd hr ((dispatch_forever_outcome fuel cfg eng inputs _).1 u)
      | out_of_fuel => exact (dispatch_forever_outcome fuel cfg eng inputs _).2 hr

/-- C18, witness: the start state satisfies the invariant; a run with a failed and a
retried send keeps it. -/
theorem tx_buffer_invariant_witness :
    tx_invariant config_duty_cycle State.init ∧
      match dispatch_forever 0 config_duty_cycle engine_would_block
          [Input.event CONNECTED, Input.one_shot, Input.event TX_DONE] State.init with
      | Outcome.ok t =>
        (t.tx_buffer = [0, 0, 0, 0, 0, 0, 0] ∨ t.tx_buffer = [0x30, 0, 0, 0, 0, 0, 0]) ∧
          ∀ c ∈ t.log, c.isSend = true →
            c = Call.send config_duty_cycle.MBED_CONF_LORA_APP_PORT [0x30, 0, 0, 0, 0, 0, 0] 1
              MSG_UNCONFIRMED_FLAG
      | Outcome.abort _ => False
      | Outcome.out_of_fuel =>
        Input.event RX_DONE ∈ [Input.event CONNECTED, Input.one_shot, Input.event TX_DONE] :=
  ⟨tx_invariant_init config_duty_cycle,
    (tx_buffer_invariant 0 config_duty_cycle engine_would_block
      [Input.event CONNECTED, Input.one_shot, Input.event TX_DONE] State.init
      (tx_invariant_init config_duty_cycle)).1⟩

end LoRaWANExample
